import Mathlib

/-!
# VXLAN control-plane store: entity model and in-memory storage

Shallow embedding of `src/network/vxlan.c` (entity constructors) and
`src/storage/memory.c` (the two chained hash tables), followed by theorems
about them.

Conventions of the embedding

* A `char*` that may be NULL is an `Option c_string`; `none` is NULL.
* A chain of `hash_entry_t` nodes linked through `next` is a `List`, head first.
* A stored `void* value` is modelled by the record it points to: no code path
  of the repository writes to an entity after it has been constructed.
* The mutex calls are omitted: the model is the sequential behaviour of one call.
* Log calls are omitted.
* The outcome of an allocation that the source tests is an explicit argument.
-/

namespace Vxlan

/-! ## C strings and the hash function -/

/-- A C string: the `char` values before the terminating NUL, each as the `int`
that the expression `*str` yields (so a platform with signed `char` gives
negative values for bytes above 127). -/
abbrev c_string := List Int

/-- An ASCII literal as a C string. -/
def ascii (s : String) : c_string := s.toList.map (fun ch => (ch.toNat : Int))

/-- The constant `#define HASH_SIZE 10007`, the number of buckets. -/
def HASH_SIZE : Nat := 10007

/-- The constant `#define MAX_VNI 16777215`, which is 2^24 - 1. -/
def MAX_VNI : Nat := 16777215

/-- One round of the loop of `hash`: `hash = ((hash << 5) + hash) + c` on a
32-bit `unsigned int`, with the `int c` converted to unsigned for the sum. -/
def hash_step (h : Nat) (c : Int) : Nat :=
  (((((h <<< 5) % 2 ^ 32 + h) % 2 ^ 32 : Nat) : Int) + c).emod (2 ^ 32) |>.toNat

/-- Function `static unsigned int hash(const char* str)`: djb2 from 5381, reduced modulo
`HASH_SIZE`. -/
def hash (str : c_string) : Nat :=
  (str.foldl hash_step 5381) % HASH_SIZE

/-! ## Entities (`vxlan.h`) -/

/-- The struct `vxlan_network_t`; `vni` is a `uint32_t`. -/
structure vxlan_network_t where
  id : Option c_string
  tenant_id : Option c_string
  name : Option c_string
  vni : Nat
  description : Option c_string
  created_at : Option c_string
  updated_at : Option c_string
  deriving DecidableEq, Repr

/-- The struct `vxlan_endpoint_t`. -/
structure vxlan_endpoint_t where
  id : Option c_string
  network_id : Option c_string
  mac_address : Option c_string
  ip_address : Option c_string
  host_id : Option c_string
  vtep_ip : Option c_string
  created_at : Option c_string
  updated_at : Option c_string
  deriving DecidableEq, Repr

/-! ## Entity constructors (`vxlan.c`) -/

/-- What a constructor call obtains from its surroundings: whether `malloc` of
the struct succeeds, the result of `generate_uuid()` (NULL when its `malloc`
fails), whether the k-th tested `strdup` of the call succeeds, and the result
of `get_timestamp()` (NULL when its `malloc` fails). -/
structure create_env where
  malloc_ok : Bool
  uuid : Option c_string
  strdup_ok : Nat → Bool
  timestamp : Option c_string

/-- The call `strdup(s)` with a given outcome: a copy of `s`, or NULL. -/
def strdup (ok : Bool) (s : c_string) : Option c_string :=
  if ok then some s else none

/-- Every allocation of a constructor call succeeds. -/
def alloc_succeeds (env : create_env) : Prop :=
  env.malloc_ok = true ∧ env.uuid.isSome = true ∧ (∀ k, env.strdup_ok k = true) ∧
    env.timestamp.isSome = true

/-- Function `vxlan_create_network`. The tested copies are numbered 0
(`tenant_id`), 1 (`name`) and 2 (`updated_at`). The source does not test the
result of `strdup(description)`; that copy is taken to succeed. When
`get_timestamp()` returns NULL, so does the copy made of it, and the call
fails. `none` is the NULL return. -/
def vxlan_create_network (env : create_env) (tenant_id name : Option c_string) (vni : Nat)
    (description : Option c_string) : Option vxlan_network_t :=
  match tenant_id, name with
  | some tenant, some nm =>
    if vni = 0 ∨ vni > MAX_VNI then none
    else if !env.malloc_ok then none
    else
      match env.uuid with
      | none => none
      | some id =>
        match strdup (env.strdup_ok 0) tenant, strdup (env.strdup_ok 1) nm with
        | some tenant_copy, some name_copy =>
          let created_at := env.timestamp
          let updated_at := created_at.bind (strdup (env.strdup_ok 2))
          match created_at, updated_at with
          | some c, some u =>
            some
              { id := some id, tenant_id := some tenant_copy, name := some name_copy, vni := vni,
                description := description, created_at := some c, updated_at := some u }
          | _, _ => none
        | _, _ => none
  | _, _ => none

/-- Function `vxlan_create_endpoint`. The tested copies are numbered 0 to 4
(the five parameters in order) and 5 (`updated_at`). When `get_timestamp()`
returns NULL, so does the copy made of it, and the call fails. `none` is the
NULL return. -/
def vxlan_create_endpoint (env : create_env)
    (network_id mac_address ip_address host_id vtep_ip : Option c_string) :
    Option vxlan_endpoint_t :=
  match network_id, mac_address, ip_address, host_id, vtep_ip with
  | some nid, some mac, some ip, some host, some vtep =>
    if !env.malloc_ok then none
    else
      match env.uuid with
      | none => none
      | some id =>
        match strdup (env.strdup_ok 0) nid, strdup (env.strdup_ok 1) mac,
            strdup (env.strdup_ok 2) ip, strdup (env.strdup_ok 3) host,
            strdup (env.strdup_ok 4) vtep with
        | some nid_copy, some mac_copy, some ip_copy, some host_copy, some vtep_copy =>
          let created_at := env.timestamp
          let updated_at := created_at.bind (strdup (env.strdup_ok 5))
          match created_at, updated_at with
          | some c, some u =>
            some
              { id := some id, network_id := some nid_copy, mac_address := some mac_copy,
                ip_address := some ip_copy, host_id := some host_copy,
                vtep_ip := some vtep_copy, created_at := some c, updated_at := some u }
          | _, _ => none
        | _, _, _, _, _ => none
  | _, _, _, _, _ => none

/-! ## The hash tables (`memory.c`) -/

/-- The struct `hash_entry_t` without its `next` link: the duplicated key and the stored
entity. -/
structure hash_entry_t (α : Type) where
  key : c_string
  value : α
  deriving DecidableEq, Repr

/-- The struct `hash_table_t`: the chain of every bucket index. Only the indices below
`HASH_SIZE` are ever read or written. -/
structure hash_table_t (α : Type) where
  entries : Nat → List (hash_entry_t α)

/-- The two global tables `networks_table` and `endpoints_table`. -/
structure storage where
  networks_table : hash_table_t vxlan_network_t
  endpoints_table : hash_table_t vxlan_endpoint_t

/-- A table after `memset(&table, 0, sizeof(hash_table_t))`. -/
def zeroed_table (α : Type) : hash_table_t α := ⟨fun _ => []⟩

/-- Function `storage_init`: both tables zeroed; the result is whether the two mutexes
could be initialised. -/
def storage_init (mutex_init_ok : Bool) : Bool × storage :=
  (mutex_init_ok, ⟨zeroed_table vxlan_network_t, zeroed_table vxlan_endpoint_t⟩)

/-- The assignment `table.entries[h] = chain`. -/
def set_bucket {α : Type} (t : hash_table_t α) (h : Nat) (chain : List (hash_entry_t α)) :
    hash_table_t α :=
  ⟨fun i => if i = h then chain else t.entries i⟩

/-- Function `storage_save_network`: the new node, holding a copy of the id and the
entity, becomes the head of bucket `hash(id)`. The source does not test the
result of `strdup(network->id)`; that copy is taken to succeed. -/
def storage_save_network (s : storage) (network : Option vxlan_network_t) (malloc_ok : Bool) :
    Bool × storage :=
  match network with
  | none => (false, s)
  | some net =>
    match net.id with
    | none => (false, s)
    | some id =>
      let h := hash id
      if !malloc_ok then (false, s)
      else
        let entry : hash_entry_t vxlan_network_t := ⟨id, net⟩
        (true, ⟨set_bucket s.networks_table h (entry :: s.networks_table.entries h),
          s.endpoints_table⟩)

/-- The `while (entry)` loop of `storage_get_network`. -/
def get_network_loop (network_id : c_string) :
    List (hash_entry_t vxlan_network_t) → Option vxlan_network_t
  | [] => none
  | entry :: next =>
    if entry.key = network_id then some entry.value else get_network_loop network_id next

/-- Function `storage_get_network`; `none` is the NULL return. -/
def storage_get_network (s : storage) (network_id : Option c_string) : Option vxlan_network_t :=
  match network_id with
  | none => none
  | some id => get_network_loop id (s.networks_table.entries (hash id))

/-- The `while (entry)` loop of `storage_delete_network`: whether a node was
unlinked, and the chain afterwards. -/
def delete_network_loop (network_id : c_string) :
    List (hash_entry_t vxlan_network_t) → Bool × List (hash_entry_t vxlan_network_t)
  | [] => (false, [])
  | entry :: next =>
    if entry.key = network_id then (true, next)
    else ((delete_network_loop network_id next).1, entry :: (delete_network_loop network_id next).2)

/-- Function `storage_delete_network`: whether a node was unlinked, and the
store afterwards. The freed entity and key are no longer part of the state. -/
def storage_delete_network (s : storage) (network_id : Option c_string) : Bool × storage :=
  match network_id with
  | none => (false, s)
  | some id =>
    let h := hash id
    let r := delete_network_loop id (s.networks_table.entries h)
    (r.1, ⟨set_bucket s.networks_table h r.2, s.endpoints_table⟩)

/-- Function `storage_save_endpoint`, as `storage_save_network` on the other table. -/
def storage_save_endpoint (s : storage) (endpoint : Option vxlan_endpoint_t) (malloc_ok : Bool) :
    Bool × storage :=
  match endpoint with
  | none => (false, s)
  | some ep =>
    match ep.id with
    | none => (false, s)
    | some id =>
      let h := hash id
      if !malloc_ok then (false, s)
      else
        let entry : hash_entry_t vxlan_endpoint_t := ⟨id, ep⟩
        (true, ⟨s.networks_table,
          set_bucket s.endpoints_table h (entry :: s.endpoints_table.entries h)⟩)

/-- The test `!network_id || strcmp(endpoint->network_id, network_id) == 0`.
A stored endpoint without a `network_id` matches no present `network_id`. -/
def network_id_matches (network_id : Option c_string) (endpoint : vxlan_endpoint_t) : Bool :=
  match network_id with
  | none => true
  | some n => decide (endpoint.network_id = some n)

/-- The `while (entry)` loop of `storage_get_endpoint`. -/
def get_endpoint_loop (network_id : Option c_string) (endpoint_id : c_string) :
    List (hash_entry_t vxlan_endpoint_t) → Option vxlan_endpoint_t
  | [] => none
  | entry :: next =>
    if entry.key = endpoint_id ∧ network_id_matches network_id entry.value = true then
      some entry.value
    else get_endpoint_loop network_id endpoint_id next

/-- Function `storage_get_endpoint`; `none` is the NULL return. -/
def storage_get_endpoint (s : storage) (network_id endpoint_id : Option c_string) :
    Option vxlan_endpoint_t :=
  match endpoint_id with
  | none => none
  | some id => get_endpoint_loop network_id id (s.endpoints_table.entries (hash id))

/-- The `while (entry)` loop of `storage_delete_endpoint`. -/
def delete_endpoint_loop (network_id : Option c_string) (endpoint_id : c_string) :
    List (hash_entry_t vxlan_endpoint_t) → Bool × List (hash_entry_t vxlan_endpoint_t)
  | [] => (false, [])
  | entry :: next =>
    if entry.key = endpoint_id ∧ network_id_matches network_id entry.value = true then
      (true, next)
    else
      ((delete_endpoint_loop network_id endpoint_id next).1,
        entry :: (delete_endpoint_loop network_id endpoint_id next).2)

/-- Function `storage_delete_endpoint`: whether a node was unlinked, and the
store afterwards. -/
def storage_delete_endpoint (s : storage) (network_id endpoint_id : Option c_string) :
    Bool × storage :=
  match endpoint_id with
  | none => (false, s)
  | some id =>
    let h := hash id
    let r := delete_endpoint_loop network_id id (s.endpoints_table.entries h)
    (r.1, ⟨s.networks_table, set_bucket s.endpoints_table h r.2⟩)

/-- The result buffer of a list call: the array pointer (`none` is NULL,
otherwise the elements written so far), `*count`, and `capacity`. -/
structure list_buffer (α : Type) where
  array : Option (List α)
  count : Nat
  capacity : Nat

/-- The body of `if (!tenant_id || ...)` in the list loops: grow the array when
`*count >= capacity` (16 first, then doubling), then `array[(*count)++] = x`.
`realloc_ok c` tells whether the `realloc` to `c` elements succeeds; when it
fails the call returns NULL and `*count` keeps its value, which is the error. -/
def list_append {α : Type} (realloc_ok : Nat → Bool) (b : list_buffer α) (x : α) :
    Except Nat (list_buffer α) :=
  if b.count ≥ b.capacity then
    let capacity := if b.capacity = 0 then 16 else b.capacity * 2
    if realloc_ok capacity then
      Except.ok ⟨some (b.array.getD [] ++ [x]), b.count + 1, capacity⟩
    else Except.error b.count
  else Except.ok ⟨b.array.map (fun a => a ++ [x]), b.count + 1, b.capacity⟩

/-- The inner `while (entry)` loop of the list functions over one chain;
`keep` is the filter test on the stored entity. -/
def list_scan {α : Type} (realloc_ok : Nat → Bool) (keep : α → Bool) :
    list_buffer α → List (hash_entry_t α) → Except Nat (list_buffer α)
  | b, [] => Except.ok b
  | b, entry :: next =>
    if keep entry.value then
      match list_append realloc_ok b entry.value with
      | Except.ok b1 => list_scan realloc_ok keep b1 next
      | Except.error c => Except.error c
    else list_scan realloc_ok keep b next

/-- The outer `for` loop of the list functions over the bucket indices `is`. -/
def list_buckets {α : Type} (realloc_ok : Nat → Bool) (keep : α → Bool) (t : hash_table_t α) :
    list_buffer α → List Nat → Except Nat (list_buffer α)
  | b, [] => Except.ok b
  | b, i :: rest =>
    match list_scan realloc_ok keep b (t.entries i) with
    | Except.ok b1 => list_buckets realloc_ok keep t b1 rest
    | Except.error c => Except.error c

/-- Both loops of a list function, from `*count = 0`, a NULL array and
`capacity = 0`: the returned pointer and the final `*count`. -/
def list_table {α : Type} (realloc_ok : Nat → Bool) (keep : α → Bool) (t : hash_table_t α) :
    Option (List α) × Nat :=
  match list_buckets realloc_ok keep t ⟨none, 0, 0⟩ (List.range HASH_SIZE) with
  | Except.ok b => (b.array, b.count)
  | Except.error c => (none, c)

/-- The filter test of `storage_list_networks`:
`!tenant_id || strcmp(network->tenant_id, tenant_id) == 0`. A stored network
without a `tenant_id` matches no present `tenant_id`. -/
def tenant_id_matches (tenant_id : Option c_string) (network : vxlan_network_t) : Bool :=
  match tenant_id with
  | none => true
  | some t => decide (network.tenant_id = some t)

/-- Function `storage_list_networks`: the returned array pointer and `*count`. -/
def storage_list_networks (s : storage) (tenant_id : Option c_string)
    (realloc_ok : Nat → Bool) : Option (List vxlan_network_t) × Nat :=
  list_table realloc_ok (tenant_id_matches tenant_id) s.networks_table

/-- Function `storage_list_endpoints`: the returned array pointer and
`*count`. `count_in` is the value of `*count` before the call, which a NULL
`network_id` leaves in place. A stored endpoint without a `network_id` is not
listed. -/
def storage_list_endpoints (s : storage) (network_id : Option c_string) (count_in : Nat)
    (realloc_ok : Nat → Bool) : Option (List vxlan_endpoint_t) × Nat :=
  match network_id with
  | none => (none, count_in)
  | some n =>
    list_table realloc_ok (fun endpoint => decide (endpoint.network_id = some n))
      s.endpoints_table

/-! ## Sequences of calls -/

/-- A call that can change the store. -/
inductive storage_op where
  | save_network (network : Option vxlan_network_t) (malloc_ok : Bool)
  | delete_network (network_id : Option c_string)
  | save_endpoint (endpoint : Option vxlan_endpoint_t) (malloc_ok : Bool)
  | delete_endpoint (network_id endpoint_id : Option c_string)

/-- The store after one call. -/
def apply_op (s : storage) : storage_op → storage
  | storage_op.save_network network malloc_ok => (storage_save_network s network malloc_ok).2
  | storage_op.delete_network network_id => (storage_delete_network s network_id).2
  | storage_op.save_endpoint endpoint malloc_ok => (storage_save_endpoint s endpoint malloc_ok).2
  | storage_op.delete_endpoint network_id endpoint_id =>
    (storage_delete_endpoint s network_id endpoint_id).2

/-- The store after a sequence of calls, first call first. -/
def run_ops (s : storage) (ops : List storage_op) : storage :=
  ops.foldl apply_op s

/-- A store state reachable from `storage_init` by save and delete calls. -/
def reachable (s : storage) : Prop :=
  ∃ ops : List storage_op, s = run_ops (storage_init true).2 ops

/-- The call `op` neither deletes from the network table under `id` nor saves a
network under `id`. -/
def leaves_network_key (id : c_string) : storage_op → Prop
  | storage_op.save_network network malloc_ok =>
    malloc_ok = false ∨ network.bind (fun net => net.id) ≠ some id
  | storage_op.delete_network network_id => network_id ≠ some id
  | storage_op.save_endpoint _ _ => True
  | storage_op.delete_endpoint _ _ => True

/-- The entities held by a table, bucket by bucket, each chain head first. -/
def stored {α : Type} (t : hash_table_t α) : List α :=
  (List.range HASH_SIZE).flatMap (fun i => (t.entries i).map (fun entry => entry.value))

/-- The result buffer holds exactly the elements `acc`: `*count` is their
number, room for them has been allocated, and the array pointer is NULL as long
as nothing has been appended. -/
def buffer_holds {α : Type} (b : list_buffer α) (acc : List α) : Prop :=
  b.count = acc.length ∧ b.count ≤ b.capacity ∧
    (acc = [] → b.array = none ∧ b.capacity = 0) ∧ (acc ≠ [] → b.array = some acc)

/-! ## Concrete data used in the examples -/

/-- An environment in which every allocation succeeds. -/
def env_ok : create_env :=
  ⟨true, some (ascii "uuid-1"), fun _ => true, some (ascii "2024-01-01T00:00:00Z")⟩

/-- The network that `env_ok` yields for tenant `t1`, name `n1`, `vni = 1000`
and no description. -/
def net_created : vxlan_network_t :=
  ⟨some (ascii "uuid-1"), some (ascii "t1"), some (ascii "n1"), 1000, none,
    some (ascii "2024-01-01T00:00:00Z"), some (ascii "2024-01-01T00:00:00Z")⟩

/-- The network that `env_ok` yields for tenant `t1`, name `n1`, `vni = 1000`
and the empty string as description. -/
def net_created_blank : vxlan_network_t :=
  ⟨some (ascii "uuid-1"), some (ascii "t1"), some (ascii "n1"), 1000, some [],
    some (ascii "2024-01-01T00:00:00Z"), some (ascii "2024-01-01T00:00:00Z")⟩

/-- A network with id `a`. -/
def net_a1 : vxlan_network_t :=
  ⟨some (ascii "a"), some (ascii "t1"), some (ascii "one"), 1000, none,
    some (ascii "2024-01-01T00:00:00Z"), some (ascii "2024-01-01T00:00:00Z")⟩

/-- A second network with the same id `a`. -/
def net_a2 : vxlan_network_t :=
  ⟨some (ascii "a"), some (ascii "t1"), some (ascii "two"), 2000, none,
    some (ascii "2024-01-01T00:00:00Z"), some (ascii "2024-01-01T00:00:00Z")⟩

/-- An endpoint with id `e` on network `a`. -/
def ep_e1 : vxlan_endpoint_t :=
  ⟨some (ascii "e"), some (ascii "a"), some (ascii "00:11:22:33:44:55"),
    some (ascii "192.168.1.100"), some (ascii "h1"), some (ascii "10.0.0.1"),
    some (ascii "2024-01-01T00:00:00Z"), some (ascii "2024-01-01T00:00:00Z")⟩

/-- A second endpoint with the same id `e` on network `a`. -/
def ep_e2 : vxlan_endpoint_t :=
  ⟨some (ascii "e"), some (ascii "a"), some (ascii "00:11:22:33:44:66"),
    some (ascii "192.168.1.101"), some (ascii "h2"), some (ascii "10.0.0.2"),
    some (ascii "2024-01-01T00:00:00Z"), some (ascii "2024-01-01T00:00:00Z")⟩

/-- The empty store right after `storage_init`. -/
def store_0 : storage := (storage_init true).2

/-- The store after saving `net_a1`. -/
def store_1 : storage := (storage_save_network store_0 (some net_a1) true).2

/-- The store after saving `net_a1` and then `net_a2`. -/
def store_2 : storage := (storage_save_network store_1 (some net_a2) true).2

/-- The store after saving `ep_e1` and then `ep_e2`. -/
def store_ep2 : storage :=
  (storage_save_endpoint (storage_save_endpoint store_0 (some ep_e1) true).2 (some ep_e2) true).2

/-! ## The HTTP handlers (`handlers.c`) and the router (`main.c`)

The JSON library and the HTTP library are outside the repository. A request
body enters as what `json_tokener_parse` and the accessors of json-c report
about it, and a response leaves as the status code handed to
`send_json_response` together with what the JSON text is built from.
-/

/-- The keys that the handlers look up in a request body. -/
inductive json_key where
  | tenant_id
  | name
  | vni
  | description
  | mac_address
  | ip_address
  | host_id
  | vtep_ip
  deriving DecidableEq, Repr

/-- What json-c reports about a parsed request body: whether
`json_object_object_get_ex` finds the key, and what `json_object_get_string`
and `json_object_get_int` (an `int32_t`) return for the value found. -/
structure json_body where
  has_key : json_key → Bool
  get_string : json_key → Option c_string
  get_int : json_key → Int

/-- The first argument of `generate_error_response` at its call sites. -/
inductive error_code where
  | INVALID_JSON
  | INVALID_PARAMS
  | CREATE_FAILED
  | SAVE_FAILED
  | NOT_FOUND
  | LIST_FAILED
  | INVALID_URL
  deriving DecidableEq, Repr

/-- What the JSON text of a response is built from. -/
inductive response_body where
  | error (code : error_code)
  | network (network : vxlan_network_t)
  | endpoint (endpoint : vxlan_endpoint_t)
  | network_array (networks : List vxlan_network_t)
  | endpoint_array (endpoints : List vxlan_endpoint_t)
  | empty_object
  | route_not_found
  deriving DecidableEq, Repr

/-- The status code and the body passed to `send_json_response`. -/
structure http_response where
  status : Nat
  body : response_body
  deriving DecidableEq, Repr

/-- The constant `MHD_HTTP_OK`. -/
def MHD_HTTP_OK : Nat := 200

/-- The constant `MHD_HTTP_CREATED`. -/
def MHD_HTTP_CREATED : Nat := 201

/-- The constant `MHD_HTTP_NO_CONTENT`. -/
def MHD_HTTP_NO_CONTENT : Nat := 204

/-- The constant `MHD_HTTP_BAD_REQUEST`. -/
def MHD_HTTP_BAD_REQUEST : Nat := 400

/-- The constant `MHD_HTTP_NOT_FOUND`. -/
def MHD_HTTP_NOT_FOUND : Nat := 404

/-- The constant `MHD_HTTP_INTERNAL_SERVER_ERROR`. -/
def MHD_HTTP_INTERNAL_SERVER_ERROR : Nat := 500

/-- What a handler call obtains from the allocator: the environment of the
constructor call, whether `malloc` of the hash node succeeds in the save call,
and which `realloc` calls succeed in the list call. -/
structure handler_env where
  create : create_env
  malloc_ok : Bool
  realloc_ok : Nat → Bool

/-- Conversion of an `int` argument to the `uint32_t` parameter `vni`. -/
def to_uint32 (v : Int) : Nat := (v.emod (2 ^ 32)).toNat

/-- The call `strrchr(s, c)` for a `c` other than NUL: the part of `s` from the
last occurrence of `c` on, or NULL. -/
def strrchr : c_string → Int → Option c_string
  | [], _ => none
  | x :: rest, c =>
    match strrchr rest c with
    | some found => some found
    | none => if x = c then some (x :: rest) else none

/-- Whether `s` begins with `t`. -/
def starts_with : c_string → c_string → Bool
  | _, [] => true
  | [], _ :: _ => false
  | x :: xs, y :: ys => decide (x = y) && starts_with xs ys

/-- The test `strstr(haystack, needle) != NULL`. -/
def strstr_found : c_string → c_string → Bool
  | [], needle => starts_with [] needle
  | x :: xs, needle => starts_with (x :: xs) needle || strstr_found xs needle

/-- The test `strncmp(a, b, n) == 0`. -/
def strncmp_eq (a b : c_string) (n : Nat) : Bool :=
  decide (a.take n = b.take n)

/-- Function `handle_create_network`: the response and the store afterwards.
`upload` is the result of `json_tokener_parse(upload_data)`, NULL when the body
does not parse. -/
def handle_create_network (s : storage) (env : handler_env) (upload : Option json_body) :
    http_response × storage :=
  match upload with
  | none => (⟨MHD_HTTP_BAD_REQUEST, response_body.error error_code.INVALID_JSON⟩, s)
  | some json =>
    if !json.has_key json_key.tenant_id || !json.has_key json_key.name ||
        !json.has_key json_key.vni then
      (⟨MHD_HTTP_BAD_REQUEST, response_body.error error_code.INVALID_PARAMS⟩, s)
    else
      match vxlan_create_network env.create (json.get_string json_key.tenant_id)
          (json.get_string json_key.name) (to_uint32 (json.get_int json_key.vni))
          (if json.has_key json_key.description then json.get_string json_key.description
            else none) with
      | none =>
        (⟨MHD_HTTP_INTERNAL_SERVER_ERROR, response_body.error error_code.CREATE_FAILED⟩, s)
      | some network =>
        let saved := storage_save_network s (some network) env.malloc_ok
        if !saved.1 then
          (⟨MHD_HTTP_INTERNAL_SERVER_ERROR, response_body.error error_code.SAVE_FAILED⟩,
            saved.2)
        else (⟨MHD_HTTP_CREATED, response_body.network network⟩, saved.2)

/-- Function `handle_get_network`; it writes nothing to the store. -/
def handle_get_network (s : storage) (network_id : c_string) : http_response :=
  match storage_get_network s (some network_id) with
  | none => ⟨MHD_HTTP_NOT_FOUND, response_body.error error_code.NOT_FOUND⟩
  | some network => ⟨MHD_HTTP_OK, response_body.network network⟩

/-- Function `handle_delete_network`. -/
def handle_delete_network (s : storage) (network_id : c_string) : http_response × storage :=
  let deleted := storage_delete_network s (some network_id)
  if !deleted.1 then
    (⟨MHD_HTTP_NOT_FOUND, response_body.error error_code.NOT_FOUND⟩, deleted.2)
  else (⟨MHD_HTTP_NO_CONTENT, response_body.empty_object⟩, deleted.2)

/-- Function `handle_list_networks`; it writes nothing to the store. The body
is built from the first `count` elements of the returned array. -/
def handle_list_networks (s : storage) (env : handler_env) : http_response :=
  match storage_list_networks s none env.realloc_ok with
  | (none, _) => ⟨MHD_HTTP_INTERNAL_SERVER_ERROR, response_body.error error_code.LIST_FAILED⟩
  | (some networks, count) => ⟨MHD_HTTP_OK, response_body.network_array (networks.take count)⟩

/-- Function `handle_create_endpoint`: the `network_id` is what follows the
last `/` of the URL. -/
def handle_create_endpoint (s : storage) (env : handler_env) (url : c_string)
    (upload : Option json_body) : http_response × storage :=
  match strrchr url 47 with
  | none => (⟨MHD_HTTP_BAD_REQUEST, response_body.error error_code.INVALID_URL⟩, s)
  | some found =>
    let network_id := found.drop 1
    match upload with
    | none => (⟨MHD_HTTP_BAD_REQUEST, response_body.error error_code.INVALID_JSON⟩, s)
    | some json =>
      if !json.has_key json_key.mac_address || !json.has_key json_key.ip_address ||
          !json.has_key json_key.host_id || !json.has_key json_key.vtep_ip then
        (⟨MHD_HTTP_BAD_REQUEST, response_body.error error_code.INVALID_PARAMS⟩, s)
      else
        match vxlan_create_endpoint env.create (some network_id)
            (json.get_string json_key.mac_address) (json.get_string json_key.ip_address)
            (json.get_string json_key.host_id) (json.get_string json_key.vtep_ip) with
        | none =>
          (⟨MHD_HTTP_INTERNAL_SERVER_ERROR, response_body.error error_code.CREATE_FAILED⟩, s)
        | some endpoint =>
          let saved := storage_save_endpoint s (some endpoint) env.malloc_ok
          if !saved.1 then
            (⟨MHD_HTTP_INTERNAL_SERVER_ERROR, response_body.error error_code.SAVE_FAILED⟩,
              saved.2)
          else (⟨MHD_HTTP_CREATED, response_body.endpoint endpoint⟩, saved.2)

/-- Function `handle_delete_endpoint`: the `endpoint_id` is what follows the
last `/` of the URL and the `network_id` is everything before that `/`, or the
empty string when that part does not fit the 256-byte buffer. -/
def handle_delete_endpoint (s : storage) (url : c_string) : http_response × storage :=
  match strrchr url 47 with
  | none => (⟨MHD_HTTP_BAD_REQUEST, response_body.error error_code.INVALID_URL⟩, s)
  | some found =>
    let endpoint_id := found.drop 1
    let net_id_len := url.length - found.length
    let network_id : c_string := if net_id_len < 256 then url.take net_id_len else []
    let deleted := storage_delete_endpoint s (some network_id) (some endpoint_id)
    if !deleted.1 then
      (⟨MHD_HTTP_NOT_FOUND, response_body.error error_code.NOT_FOUND⟩, deleted.2)
    else (⟨MHD_HTTP_NO_CONTENT, response_body.empty_object⟩, deleted.2)

/-- Function `handle_list_endpoints`; it writes nothing to the store. The
`network_id` is what follows the last `/` of the URL; `count` is not
initialised before the call, which is immaterial since the `network_id` passed
is not NULL. -/
def handle_list_endpoints (s : storage) (env : handler_env) (url : c_string) : http_response :=
  match strrchr url 47 with
  | none => ⟨MHD_HTTP_BAD_REQUEST, response_body.error error_code.INVALID_URL⟩
  | some found =>
    let network_id := found.drop 1
    match storage_list_endpoints s (some network_id) 0 env.realloc_ok with
    | (none, _) =>
      ⟨MHD_HTTP_INTERNAL_SERVER_ERROR, response_body.error error_code.LIST_FAILED⟩
    | (some endpoints, count) =>
      ⟨MHD_HTTP_OK, response_body.endpoint_array (endpoints.take count)⟩

/-- Function `request_handler` of `main.c` from the comment `Parse URL and
method to determine handler` on, that is on the call in which the request is
answered: the response queued and the store afterwards. In the DELETE case
the source forms `url + 16` without testing the length; for a URL of 15
characters that points past the terminator, and the model passes the empty
string. -/
def request_handler (s : storage) (env : handler_env) (method url : c_string)
    (upload : Option json_body) : http_response × storage :=
  let route_not_found : http_response × storage :=
    (⟨MHD_HTTP_NOT_FOUND, response_body.route_not_found⟩, s)
  if method = ascii "POST" then
    if strncmp_eq url (ascii "/api/v1/networks") 15 then handle_create_network s env upload
    else if strstr_found url (ascii "/endpoints") then handle_create_endpoint s env url upload
    else route_not_found
  else if method = ascii "GET" then
    if strncmp_eq url (ascii "/api/v1/networks") 15 then
      if url.length > 16 then (handle_get_network s (url.drop 16), s)
      else (handle_list_networks s env, s)
    else if strstr_found url (ascii "/endpoints") then (handle_list_endpoints s env url, s)
    else route_not_found
  else if method = ascii "DELETE" then
    if strncmp_eq url (ascii "/api/v1/networks") 15 then
      if strstr_found url (ascii "/endpoints") then handle_delete_endpoint s url
      else handle_delete_network s (url.drop 16)
    else route_not_found
  else route_not_found

/-! ## Notions used to state the claims of the second group -/

/-- Every node of either table sits in the bucket that `hash` gives its key. -/
def well_bucketed (s : storage) : Prop :=
  (∀ i, ∀ entry ∈ s.networks_table.entries i, hash entry.key = i) ∧
  (∀ i, ∀ entry ∈ s.endpoints_table.entries i, hash entry.key = i)

/-- The test of the loops of `storage_get_endpoint` and
`storage_delete_endpoint` on one node, as a Boolean. -/
def endpoint_node_matches (network_id : Option c_string) (endpoint_id : c_string)
    (entry : hash_entry_t vxlan_endpoint_t) : Bool :=
  decide (entry.key = endpoint_id) && network_id_matches network_id entry.value

/-- The hash as the specification words it: from 5381, one round
`h := (h * 33 + byte) mod 2^32` per byte, the result reduced modulo 10007. -/
def djb2_of_bytes (bytes : List Nat) : Nat :=
  (bytes.foldl (fun h byte => (h * 33 + byte) % 2 ^ 32) 5381) % 10007

/-- The `int` that `*str` yields for one byte where plain `char` is unsigned. -/
def char_unsigned (byte : Nat) : Int := (byte : Int)

/-- The `int` that `*str` yields for one byte where plain `char` is signed
(8 bits, two's complement), as on x86 Linux. -/
def char_signed (byte : Nat) : Int :=
  if byte < 128 then (byte : Int) else (byte : Int) - 256

/-- An allocator with which every call of a handler succeeds. -/
def henv_ok : handler_env := ⟨env_ok, true, fun _ => true⟩

/-- A parsed body with `tenant_id` `t1`, `name` `n1` and `vni` 0. -/
def body_vni_zero : json_body :=
  ⟨fun key => decide (key = json_key.tenant_id ∨ key = json_key.name ∨ key = json_key.vni),
    fun key =>
      match key with
      | json_key.tenant_id => some (ascii "t1")
      | json_key.name => some (ascii "n1")
      | _ => none,
    fun _ => 0⟩

/-- A parsed body with `tenant_id` `t1`, `name` `n1` and `vni` 2^24. -/
def body_vni_too_large : json_body :=
  ⟨fun key => decide (key = json_key.tenant_id ∨ key = json_key.name ∨ key = json_key.vni),
    fun key =>
      match key with
      | json_key.tenant_id => some (ascii "t1")
      | json_key.name => some (ascii "n1")
      | _ => none,
    fun _ => 2 ^ 24⟩

/-- The parsed body that `test_create_endpoint` posts: `mac_address`,
`ip_address`, `host_id` and `vtep_ip`, nothing else. -/
def body_test_endpoint : json_body :=
  ⟨fun key =>
      decide (key = json_key.mac_address ∨ key = json_key.ip_address ∨
        key = json_key.host_id ∨ key = json_key.vtep_ip),
    fun key =>
      match key with
      | json_key.mac_address => some (ascii "00:11:22:33:44:55")
      | json_key.ip_address => some (ascii "192.168.1.100")
      | json_key.host_id => some (ascii "host1")
      | json_key.vtep_ip => some (ascii "10.0.0.1")
      | _ => none,
    fun _ => 0⟩

/-- The store after saving `ep_e1`. -/
def store_ep1 : storage := (storage_save_endpoint store_0 (some ep_e1) true).2

/-! ## Notions used to state the claims of the third group -/

/-- Every node of either table has as key the id of the entity it holds. -/
def keys_are_ids (s : storage) : Prop :=
  (∀ i, ∀ entry ∈ s.networks_table.entries i, entry.value.id = some entry.key) ∧
  (∀ i, ∀ entry ∈ s.endpoints_table.entries i, entry.value.id = some entry.key)

/-- The number of `storage_save_network` calls that return true when the calls
`ops` are made one after the other from the state `s`. -/
def count_network_saves : storage → List storage_op → Nat
  | _, [] => 0
  | s, op :: rest =>
    (match op with
      | storage_op.save_network network malloc_ok =>
        if (storage_save_network s network malloc_ok).1 then 1 else 0
      | _ => 0) + count_network_saves (apply_op s op) rest

/-- The number of `storage_delete_network` calls that return true when the
calls `ops` are made one after the other from the state `s`. -/
def count_network_deletes : storage → List storage_op → Nat
  | _, [] => 0
  | s, op :: rest =>
    (match op with
      | storage_op.delete_network network_id =>
        if (storage_delete_network s network_id).1 then 1 else 0
      | _ => 0) + count_network_deletes (apply_op s op) rest

/-- The endpoint that `handle_create_endpoint` builds with `env_ok` from the
body of `test_create_endpoint` posted to `/api/v1/networks/a/endpoints`. -/
def ep_created_by_handler : vxlan_endpoint_t :=
  ⟨some (ascii "uuid-1"), some (ascii "endpoints"), some (ascii "00:11:22:33:44:55"),
    some (ascii "192.168.1.100"), some (ascii "host1"), some (ascii "10.0.0.1"),
    some (ascii "2024-01-01T00:00:00Z"), some (ascii "2024-01-01T00:00:00Z")⟩

/-- The store after saving `net_a1` and then `ep_e1`, an endpoint of network
`a`. -/
def store_net_ep : storage := (storage_save_endpoint store_1 (some ep_e1) true).2

/-- A network with id `gnf`, a key that `hash` sends to the bucket of `a`. -/
def net_gnf : vxlan_network_t :=
  ⟨some (ascii "gnf"), some (ascii "t2"), some (ascii "three"), 3000, none,
    some (ascii "2024-01-01T00:00:00Z"), some (ascii "2024-01-01T00:00:00Z")⟩

/-! ## Lemmas on buckets and chains -/

@[simp] theorem set_bucket_entries_same {α : Type} (t : hash_table_t α) (h : Nat)
    (chain : List (hash_entry_t α)) : (set_bucket t h chain).entries h = chain := by
  simp [set_bucket]

theorem set_bucket_entries_other {α : Type} (t : hash_table_t α) (h i : Nat)
    (chain : List (hash_entry_t α)) (hne : i ≠ h) :
    (set_bucket t h chain).entries i = t.entries i := by
  simp [set_bucket, hne]

theorem save_network_succeeds_iff (s : storage) (e : vxlan_network_t) (malloc_ok : Bool) :
    (storage_save_network s (some e) malloc_ok).1 = true ↔
      (∃ id, e.id = some id) ∧ malloc_ok = true := by
  cases hid : e.id <;> cases malloc_ok <;> simp [storage_save_network, hid]

theorem save_network_state (s : storage) (e : vxlan_network_t) (id : c_string)
    (hid : e.id = some id) :
    (storage_save_network s (some e) true).2 =
      ⟨set_bucket s.networks_table (hash id) (⟨id, e⟩ :: s.networks_table.entries (hash id)),
        s.endpoints_table⟩ := by
  simp [storage_save_network, hid]

theorem save_endpoint_succeeds_iff (s : storage) (e : vxlan_endpoint_t) (malloc_ok : Bool) :
    (storage_save_endpoint s (some e) malloc_ok).1 = true ↔
      (∃ id, e.id = some id) ∧ malloc_ok = true := by
  cases hid : e.id <;> cases malloc_ok <;> simp [storage_save_endpoint, hid]

theorem save_endpoint_state (s : storage) (e : vxlan_endpoint_t) (id : c_string)
    (hid : e.id = some id) :
    (storage_save_endpoint s (some e) true).2 =
      ⟨s.networks_table,
        set_bucket s.endpoints_table (hash id) (⟨id, e⟩ :: s.endpoints_table.entries (hash id))⟩ := by
  simp [storage_save_endpoint, hid]

theorem save_endpoint_networks_table (s : storage) (e : Option vxlan_endpoint_t)
    (malloc_ok : Bool) :
    (storage_save_endpoint s e malloc_ok).2.networks_table = s.networks_table := by
  cases e with
  | none => rfl
  | some ep => cases hid : ep.id <;> cases malloc_ok <;> simp [storage_save_endpoint, hid]

theorem delete_endpoint_networks_table (s : storage) (n id : Option c_string) :
    (storage_delete_endpoint s n id).2.networks_table = s.networks_table := by
  unfold storage_delete_endpoint
  cases id <;> rfl

/-- Unlinking a node under another key does not change what a lookup finds. -/
theorem get_network_loop_delete_other (id k : c_string) (hne : k ≠ id)
    (chain : List (hash_entry_t vxlan_network_t)) :
    get_network_loop id (delete_network_loop k chain).2 = get_network_loop id chain := by
  induction chain with
  | nil => rfl
  | cons entry next ih =>
    by_cases hk : entry.key = k
    · have hid : entry.key ≠ id := by rw [hk]; exact hne
      simp only [delete_network_loop, get_network_loop, if_pos hk, if_neg hid]
    · by_cases hid : entry.key = id
      · simp only [delete_network_loop, get_network_loop, if_neg hk, if_pos hid]
      · simp only [delete_network_loop, get_network_loop, if_neg hk, if_neg hid, ih]

theorem get_network_loop_eq_none_iff (id : c_string)
    (chain : List (hash_entry_t vxlan_network_t)) :
    get_network_loop id chain = none ↔
      chain.filter (fun entry => decide (entry.key = id)) = [] := by
  induction chain with
  | nil => simp [get_network_loop]
  | cons entry next ih =>
    by_cases hid : entry.key = id
    · simp [get_network_loop, hid]
    · simp [get_network_loop, hid, ih]

theorem get_endpoint_loop_eq_none_iff (n : Option c_string) (id : c_string)
    (chain : List (hash_entry_t vxlan_endpoint_t)) :
    get_endpoint_loop n id chain = none ↔
      chain.filter
        (fun entry => decide (entry.key = id) && network_id_matches n entry.value) = [] := by
  induction chain with
  | nil => simp [get_endpoint_loop]
  | cons entry next ih =>
    by_cases hid : entry.key = id ∧ network_id_matches n entry.value = true
    · have h1 := hid.1
      have h2 := hid.2
      simp [get_endpoint_loop, h1, h2]
    · have hf : (decide (entry.key = id) && network_id_matches n entry.value) = false := by
        by_cases h1 : entry.key = id
        · have h2 : network_id_matches n entry.value = false := by
            cases hm : network_id_matches n entry.value
            · rfl
            · exact absurd ⟨h1, hm⟩ hid
          simp [h1, h2]
        · simp [h1]
      rw [get_endpoint_loop, if_neg hid, ih, List.filter_cons, hf]
      simp

/-- After a successful unlink, a lookup of the same key finds nothing exactly
when the chain held one node under that key. -/
theorem get_after_delete_network_loop (id : c_string)
    (chain : List (hash_entry_t vxlan_network_t))
    (hfound : (delete_network_loop id chain).1 = true) :
    get_network_loop id (delete_network_loop id chain).2 = none ↔
      (chain.filter (fun entry => decide (entry.key = id))).length = 1 := by
  induction chain with
  | nil => simp [delete_network_loop] at hfound
  | cons entry next ih =>
    by_cases hid : entry.key = id
    · simp [delete_network_loop, hid, get_network_loop_eq_none_iff]
    · simp only [delete_network_loop, if_neg hid] at hfound
      simp [delete_network_loop, get_network_loop, hid, ih hfound]

theorem get_after_delete_endpoint_loop (n : Option c_string) (id : c_string)
    (chain : List (hash_entry_t vxlan_endpoint_t))
    (hfound : (delete_endpoint_loop n id chain).1 = true) :
    get_endpoint_loop n id (delete_endpoint_loop n id chain).2 = none ↔
      (chain.filter
        (fun entry => decide (entry.key = id) && network_id_matches n entry.value)).length
        = 1 := by
  induction chain with
  | nil => simp [delete_endpoint_loop] at hfound
  | cons entry next ih =>
    by_cases hid : entry.key = id ∧ network_id_matches n entry.value = true
    · have h1 := hid.1
      have h2 := hid.2
      simp [delete_endpoint_loop, h1, h2, get_endpoint_loop_eq_none_iff]
    · have hf : (decide (entry.key = id) && network_id_matches n entry.value) = false := by
        by_cases h1 : entry.key = id
        · have h2 : network_id_matches n entry.value = false := by
            cases hm : network_id_matches n entry.value
            · rfl
            · exact absurd ⟨h1, hm⟩ hid
          simp [h1, h2]
        · simp [h1]
      simp only [delete_endpoint_loop, if_neg hid] at hfound
      rw [delete_endpoint_loop, if_neg hid]
      simp only []
      rw [get_endpoint_loop, if_neg hid, ih hfound, List.filter_cons, hf]
      simp

/-- A call that leaves the network key `id` alone does not change the lookup
of `id`. -/
theorem get_network_apply_op (s : storage) (id : c_string) (op : storage_op)
    (hop : leaves_network_key id op) :
    storage_get_network (apply_op s op) (some id) = storage_get_network s (some id) := by
  cases op with
  | save_network network malloc_ok =>
    cases network with
    | none => rfl
    | some net =>
      cases hk : net.id with
      | none => simp [apply_op, storage_save_network, hk]
      | some k =>
        cases malloc_ok with
        | false => simp [apply_op, storage_save_network, hk]
        | true =>
          have hne : k ≠ id := by
            rcases hop with h | h
            · cases h
            · intro hk2
              apply h
              simp [hk, hk2]
          simp only [apply_op, save_network_state s net k hk, storage_get_network]
          by_cases hh : hash id = hash k
          · rw [hh, set_bucket_entries_same]
            simp [get_network_loop, hne]
          · rw [set_bucket_entries_other _ _ _ _ hh]
  | delete_network network_id =>
    cases network_id with
    | none => rfl
    | some k =>
      have hne : k ≠ id := by
        intro hk2
        apply hop
        rw [hk2]
      simp only [apply_op, storage_delete_network, storage_get_network]
      by_cases hh : hash id = hash k
      · rw [hh, set_bucket_entries_same]
        exact get_network_loop_delete_other id k hne _
      · rw [set_bucket_entries_other _ _ _ _ hh]
  | save_endpoint endpoint malloc_ok =>
    simp only [apply_op, storage_get_network, save_endpoint_networks_table]
  | delete_endpoint n k =>
    simp only [apply_op, storage_get_network, delete_endpoint_networks_table]

theorem get_network_run_ops (id : c_string) (ops : List storage_op) :
    ∀ s : storage, (∀ op ∈ ops, leaves_network_key id op) →
      storage_get_network (run_ops s ops) (some id) = storage_get_network s (some id) := by
  induction ops with
  | nil => intro s _; rfl
  | cons op rest ih =>
    intro s hops
    have h1 : leaves_network_key id op := hops op (List.mem_cons_self _ _)
    have h2 : ∀ o ∈ rest, leaves_network_key id o :=
      fun o ho => hops o (List.mem_cons_of_mem _ ho)
    show storage_get_network (run_ops (apply_op s op) rest) (some id) = _
    rw [ih (apply_op s op) h2, get_network_apply_op s id op h1]

/-! ## Lemmas on the list loops -/

theorem list_append_holds {α : Type} (realloc_ok : Nat → Bool) (b b1 : list_buffer α)
    (acc : List α) (x : α) (hb : buffer_holds b acc)
    (h : list_append realloc_ok b x = Except.ok b1) : buffer_holds b1 (acc ++ [x]) := by
  obtain ⟨hc, hcap, hnil, hcons⟩ := hb
  unfold list_append at h
  by_cases hge : b.count ≥ b.capacity
  · rw [if_pos hge] at h
    cases hr : realloc_ok (if b.capacity = 0 then 16 else b.capacity * 2) with
    | false => simp [hr] at h
    | true =>
      simp only [hr, if_true] at h
      injection h with h
      subst h
      have harr : b.array.getD [] = acc := by
        by_cases ha : acc = []
        · rw [(hnil ha).1, ha]; rfl
        · rw [hcons ha]; rfl
      refine ⟨by simp [hc], ?_, by simp, ?_⟩
      · show b.count + 1 ≤ if b.capacity = 0 then 16 else b.capacity * 2
        split <;> omega
      · intro _
        show some (b.array.getD [] ++ [x]) = some (acc ++ [x])
        rw [harr]
  · rw [if_neg hge] at h
    injection h with h
    subst h
    have ha : acc ≠ [] := by
      intro ha
      have := (hnil ha).2
      omega
    refine ⟨by simp [hc], ?_, by simp, ?_⟩
    · show b.count + 1 ≤ b.capacity
      omega
    · intro _
      show b.array.map (fun a => a ++ [x]) = some (acc ++ [x])
      rw [hcons ha]
      rfl

theorem list_append_ok {α : Type} (realloc_ok : Nat → Bool) (hall : ∀ c, realloc_ok c = true)
    (b : list_buffer α) (x : α) : ∃ b1, list_append realloc_ok b x = Except.ok b1 := by
  unfold list_append
  by_cases hge : b.count ≥ b.capacity
  · rw [if_pos hge]
    simp only [hall]
    exact ⟨_, rfl⟩
  · rw [if_neg hge]
    exact ⟨_, rfl⟩

theorem list_scan_holds {α : Type} (realloc_ok : Nat → Bool) (keep : α → Bool)
    (chain : List (hash_entry_t α)) :
    ∀ (b b1 : list_buffer α) (acc : List α), buffer_holds b acc →
      list_scan realloc_ok keep b chain = Except.ok b1 →
      buffer_holds b1 (acc ++ (chain.map (fun entry => entry.value)).filter keep) := by
  induction chain with
  | nil =>
    intro b b1 acc hb h
    simp only [list_scan] at h
    injection h with h
    subst h
    simpa using hb
  | cons entry next ih =>
    intro b b1 acc hb h
    cases hk : keep entry.value with
    | false =>
      simp only [list_scan, hk] at h
      have := ih b b1 acc hb h
      simpa [List.filter_cons, hk] using this
    | true =>
      simp only [list_scan, hk, if_true] at h
      cases ha : list_append realloc_ok b entry.value with
      | error c => rw [ha] at h; cases h
      | ok b2 =>
        rw [ha] at h
        have h2 := ih b2 b1 (acc ++ [entry.value])
          (list_append_holds realloc_ok b b2 acc entry.value hb ha) h
        simpa [List.filter_cons, hk] using h2

theorem list_scan_ok {α : Type} (realloc_ok : Nat → Bool) (hall : ∀ c, realloc_ok c = true)
    (keep : α → Bool) (chain : List (hash_entry_t α)) :
    ∀ b : list_buffer α, ∃ b1, list_scan realloc_ok keep b chain = Except.ok b1 := by
  induction chain with
  | nil => intro b; exact ⟨b, rfl⟩
  | cons entry next ih =>
    intro b
    cases hk : keep entry.value with
    | false =>
      obtain ⟨b1, h1⟩ := ih b
      exact ⟨b1, by simp only [list_scan, hk]; exact h1⟩
    | true =>
      obtain ⟨b2, h2⟩ := list_append_ok realloc_ok hall b entry.value
      obtain ⟨b1, h1⟩ := ih b2
      exact ⟨b1, by simp only [list_scan, hk, if_true, h2]; exact h1⟩

theorem list_buckets_holds {α : Type} (realloc_ok : Nat → Bool) (keep : α → Bool)
    (t : hash_table_t α) (is : List Nat) :
    ∀ (b b1 : list_buffer α) (acc : List α), buffer_holds b acc →
      list_buckets realloc_ok keep t b is = Except.ok b1 →
      buffer_holds b1
        (acc ++ is.flatMap
          (fun i => ((t.entries i).map (fun entry => entry.value)).filter keep)) := by
  induction is with
  | nil =>
    intro b b1 acc hb h
    simp only [list_buckets] at h
    injection h with h
    subst h
    simpa using hb
  | cons i rest ih =>
    intro b b1 acc hb h
    simp only [list_buckets] at h
    cases hs : list_scan realloc_ok keep b (t.entries i) with
    | error c => rw [hs] at h; cases h
    | ok b2 =>
      rw [hs] at h
      have h2 := ih b2 b1 _ (list_scan_holds realloc_ok keep (t.entries i) b b2 acc hb hs) h
      simpa [List.flatMap_cons, List.append_assoc] using h2

theorem list_buckets_ok {α : Type} (realloc_ok : Nat → Bool) (hall : ∀ c, realloc_ok c = true)
    (keep : α → Bool) (t : hash_table_t α) (is : List Nat) :
    ∀ b : list_buffer α, ∃ b1, list_buckets realloc_ok keep t b is = Except.ok b1 := by
  induction is with
  | nil => intro b; exact ⟨b, rfl⟩
  | cons i rest ih =>
    intro b
    obtain ⟨b2, h2⟩ := list_scan_ok realloc_ok hall keep (t.entries i) b
    obtain ⟨b1, h1⟩ := ih b2
    exact ⟨b1, by simp only [list_buckets, h2]; exact h1⟩

theorem buffer_holds_init {α : Type} : buffer_holds (⟨none, 0, 0⟩ : list_buffer α) [] :=
  ⟨rfl, Nat.le_refl 0, fun _ => ⟨rfl, rfl⟩, fun h => absurd rfl h⟩

/-- A non-NULL array returned by the two loops is the list of the stored
entities that pass the filter, and `*count` is its length. -/
theorem list_table_some {α : Type} (realloc_ok : Nat → Bool) (keep : α → Bool)
    (t : hash_table_t α) (arr : List α) (h : (list_table realloc_ok keep t).1 = some arr) :
    arr = (stored t).filter keep ∧ (list_table realloc_ok keep t).2 = arr.length := by
  unfold list_table at h ⊢
  cases hb : list_buckets realloc_ok keep t ⟨none, 0, 0⟩ (List.range HASH_SIZE) with
  | error c => rw [hb] at h; cases h
  | ok b =>
    rw [hb] at h
    simp only [] at h ⊢
    have hh := list_buckets_holds realloc_ok keep t (List.range HASH_SIZE) _ b []
      buffer_holds_init hb
    rw [List.nil_append, ← List.filter_flatMap] at hh
    obtain ⟨hc, -, hnil, hcons⟩ := hh
    by_cases hm : (stored t).filter keep = []
    · have := (hnil hm).1
      rw [this] at h
      cases h
    · have := hcons hm
      rw [this] at h
      injection h with h
      subst h
      exact ⟨rfl, hc⟩

/-- When no `realloc` fails, the two loops return the stored entities that pass
the filter (a NULL array when there is none) and their number. -/
theorem list_table_all_ok {α : Type} (realloc_ok : Nat → Bool) (hall : ∀ c, realloc_ok c = true)
    (keep : α → Bool) (t : hash_table_t α) :
    list_table realloc_ok keep t =
      (if ((stored t).filter keep).isEmpty then none else some ((stored t).filter keep),
        ((stored t).filter keep).length) := by
  obtain ⟨b, hb⟩ := list_buckets_ok realloc_ok hall keep t (List.range HASH_SIZE) ⟨none, 0, 0⟩
  have hh : buffer_holds b ((stored t).filter keep) := by
    have h0 := list_buckets_holds realloc_ok keep t (List.range HASH_SIZE) _ b []
      buffer_holds_init hb
    rw [List.nil_append, ← List.filter_flatMap] at h0
    exact h0
  obtain ⟨hc, -, hnil, hcons⟩ := hh
  unfold list_table
  rw [hb]
  by_cases hm : (stored t).filter keep = []
  · simp only [(hnil hm).1, hc, hm, List.isEmpty_nil, if_true]
  · have he : ((stored t).filter keep).isEmpty = false := by
      cases hl : (stored t).filter keep with
      | nil => exact absurd hl hm
      | cons a l => rfl
    simp only [hcons hm, hc, he, Bool.false_eq_true, if_false]

theorem flatMap_eq_nil_of_forall {β : Type} (f : Nat → List β) (l : List Nat)
    (h : ∀ i ∈ l, f i = []) : l.flatMap f = [] := by
  induction l with
  | nil => rfl
  | cons a l ih =>
    rw [List.flatMap_cons, h a (List.mem_cons_self _ _),
      ih (fun i hi => h i (List.mem_cons_of_mem _ hi))]
    rfl

theorem flatMap_single_bucket {β : Type} (f : Nat → List β) (k : Nat) (l : List Nat)
    (hnd : l.Nodup) (hk : k ∈ l) (h : ∀ i, i ≠ k → f i = []) : l.flatMap f = f k := by
  induction l with
  | nil => cases hk
  | cons a l ih =>
    rw [List.flatMap_cons]
    rw [List.nodup_cons] at hnd
    by_cases hak : a = k
    · subst hak
      rw [flatMap_eq_nil_of_forall f l (fun i hi => h i (fun hia => hnd.1 (hia ▸ hi)))]
      simp
    · rw [h a hak, List.nil_append]
      rcases List.mem_cons.1 hk with hka | hkl
      · exact absurd hka.symm hak
      · exact ih hnd.2 hkl

/-- The entities of a table whose nodes all sit in one bucket. -/
theorem stored_single_bucket {α : Type} (t : hash_table_t α) (k : Nat) (hk : k < HASH_SIZE)
    (h : ∀ i, i ≠ k → t.entries i = []) :
    stored t = (t.entries k).map (fun entry => entry.value) := by
  unfold stored
  exact flatMap_single_bucket _ k _ (List.nodup_range _) (List.mem_range.2 hk)
    (fun i hi => by simp only [h i hi, List.map_nil])

theorem hash_lt (str : c_string) : hash str < HASH_SIZE :=
  Nat.mod_lt _ (by decide)

theorem stored_store_ep2 : stored store_ep2.endpoints_table = [ep_e2, ep_e1] := by
  rw [stored_single_bucket store_ep2.endpoints_table (hash (ascii "e")) (hash_lt _)]
  · decide
  · intro i hi
    simp [store_ep2, store_0, storage_init, zeroed_table, storage_save_endpoint, ep_e1, ep_e2,
      set_bucket, hi]

/-! ## Lemmas on the constructors -/

/-- What a successful `vxlan_create_network` call returns. -/
theorem create_network_some (env : create_env) (tenant_id name description : Option c_string)
    (vni : Nat) (net : vxlan_network_t)
    (h : vxlan_create_network env tenant_id name vni description = some net) :
    ∃ tenant nm id ts, tenant_id = some tenant ∧ name = some nm ∧ 1 ≤ vni ∧ vni ≤ MAX_VNI ∧
      env.uuid = some id ∧ env.timestamp = some ts ∧
      net = ⟨some id, some tenant, some nm, vni, description, some ts, some ts⟩ := by
  unfold vxlan_create_network at h
  cases tenant_id with
  | none => simp at h
  | some tenant =>
    cases name with
    | none => simp at h
    | some nm =>
      cases hu : env.uuid with
      | none => simp [hu] at h
      | some id =>
        cases ht : env.timestamp with
        | none => simp [hu, ht] at h; repeat (split at h <;> simp at h)
        | some ts =>
          cases h0 : env.strdup_ok 0 <;> cases h1 : env.strdup_ok 1 <;>
            cases h2 : env.strdup_ok 2 <;> cases hm : env.malloc_ok <;>
            simp [hu, ht, h0, h1, h2, hm, strdup] at h
          refine ⟨tenant, nm, id, ts, rfl, rfl, ?_, ?_, rfl, rfl, h.2.symm⟩
          · omega
          · omega

/-- With every allocation succeeding, `vxlan_create_network` on present
`tenant_id` and `name` and a `vni` in range returns the network built from
its arguments. -/
theorem create_network_ok (env : create_env) (halloc : alloc_succeeds env)
    (tenant nm : c_string) (description : Option c_string) (vni : Nat)
    (h1 : 1 ≤ vni) (h2 : vni ≤ MAX_VNI) :
    ∃ id ts, env.uuid = some id ∧ env.timestamp = some ts ∧
      vxlan_create_network env (some tenant) (some nm) vni description =
        some ⟨some id, some tenant, some nm, vni, description, some ts, some ts⟩ := by
  obtain ⟨hm, hu, hs, ht⟩ := halloc
  cases hu2 : env.uuid with
  | none => simp [hu2] at hu
  | some id =>
    cases ht2 : env.timestamp with
    | none => simp [ht2] at ht
    | some ts =>
      refine ⟨id, ts, rfl, rfl, ?_⟩
      have hv : ¬ (vni = 0 ∨ vni > MAX_VNI) := by omega
      simp [vxlan_create_network, hv, hm, hu2, ht2, hs, strdup]

/-- What a successful `vxlan_create_endpoint` call returns. -/
theorem create_endpoint_some (env : create_env)
    (network_id mac_address ip_address host_id vtep_ip : Option c_string)
    (ep : vxlan_endpoint_t)
    (h : vxlan_create_endpoint env network_id mac_address ip_address host_id vtep_ip = some ep) :
    ∃ nid mac ip host vtep id ts, network_id = some nid ∧ mac_address = some mac ∧
      ip_address = some ip ∧ host_id = some host ∧ vtep_ip = some vtep ∧
      env.uuid = some id ∧ env.timestamp = some ts ∧
      ep = ⟨some id, some nid, some mac, some ip, some host, some vtep, some ts, some ts⟩ := by
  unfold vxlan_create_endpoint at h
  cases network_id <;> cases mac_address <;> cases ip_address <;> cases host_id <;>
    cases vtep_ip <;> try (simp at h; done)
  rename_i nid mac ip host vtep
  cases hu : env.uuid with
  | none => simp [hu] at h
  | some id =>
    cases ht : env.timestamp with
    | none => simp [hu, ht] at h; repeat (split at h <;> simp at h)
    | some ts =>
      cases h0 : env.strdup_ok 0 <;> cases h1 : env.strdup_ok 1 <;>
        cases h2 : env.strdup_ok 2 <;> cases h3 : env.strdup_ok 3 <;>
        cases h4 : env.strdup_ok 4 <;> cases h5 : env.strdup_ok 5 <;>
        cases hm : env.malloc_ok <;>
        simp [hu, ht, h0, h1, h2, h3, h4, h5, hm, strdup] at h
      exact ⟨nid, mac, ip, host, vtep, id, ts, rfl, rfl, rfl, rfl, rfl, rfl, rfl, h.symm⟩

/-- With every allocation succeeding, `vxlan_create_endpoint` on five present
strings returns the endpoint built from them. -/
theorem create_endpoint_ok (env : create_env) (halloc : alloc_succeeds env)
    (nid mac ip host vtep : c_string) :
    ∃ id ts, env.uuid = some id ∧ env.timestamp = some ts ∧
      vxlan_create_endpoint env (some nid) (some mac) (some ip) (some host) (some vtep) =
        some ⟨some id, some nid, some mac, some ip, some host, some vtep, some ts, some ts⟩ := by
  obtain ⟨hm, hu, hs, ht⟩ := halloc
  cases hu2 : env.uuid with
  | none => simp [hu2] at hu
  | some id =>
    cases ht2 : env.timestamp with
    | none => simp [ht2] at ht
    | some ts =>
      refine ⟨id, ts, rfl, rfl, ?_⟩
      simp [vxlan_create_endpoint, hm, hu2, ht2, hs, strdup]

/-- A NULL among the five parameters makes `vxlan_create_endpoint` return NULL,
whatever the allocator does. -/
theorem create_endpoint_none_of_absent (env : create_env)
    (network_id mac_address ip_address host_id vtep_ip : Option c_string)
    (h : network_id = none ∨ mac_address = none ∨ ip_address = none ∨ host_id = none ∨
      vtep_ip = none) :
    vxlan_create_endpoint env network_id mac_address ip_address host_id vtep_ip = none := by
  unfold vxlan_create_endpoint
  cases network_id <;> cases mac_address <;> cases ip_address <;> cases host_id <;>
    cases vtep_ip <;> simp at h ⊢

theorem env_ok_alloc_succeeds : alloc_succeeds env_ok :=
  ⟨rfl, rfl, fun _ => rfl, rfl⟩

/-! ## Claims on the store -/

/-- C1, as stated, fails: after `net_a1` is saved under id `a`, a save of
`net_a2` under the same id (no delete in between) makes the lookup of `a`
return `net_a2`, which is not `net_a1`. -/
theorem network_round_trip_shadowed :
    net_a1.id = some (ascii "a") ∧
    (storage_save_network store_0 (some net_a1) true).1 = true ∧
    storage_get_network
      (run_ops (storage_save_network store_0 (some net_a1) true).2
        [storage_op.save_network (some net_a2) true])
      (some (ascii "a")) = some net_a2 ∧
    net_a2 ≠ net_a1 := by
  decide

/-- C1 (amended): for every store state and every network `e` with id `id`,
after `storage_save_network(e)` succeeds, `storage_get_network(id)` returns
`e`, field for field, after any sequence of save and delete calls that
contains no delete of `id` and no successful save of a network under `id`. -/
theorem network_round_trip (s : storage) (e : vxlan_network_t) (id : c_string)
    (malloc_ok : Bool) (ops : List storage_op)
    (hid : e.id = some id)
    (hsave : (storage_save_network s (some e) malloc_ok).1 = true)
    (hops : ∀ op ∈ ops, leaves_network_key id op) :
    storage_get_network (run_ops (storage_save_network s (some e) malloc_ok).2 ops) (some id)
      = some e := by
  have hm : malloc_ok = true := ((save_network_succeeds_iff s e malloc_ok).1 hsave).2
  subst hm
  rw [get_network_run_ops id ops _ hops, save_network_state s e id hid]
  simp [storage_get_network, get_network_loop]

/-- Witness of C1 (amended): `net_a1` saved into the empty store, followed by
a save and a delete of an endpoint, is still returned. -/
theorem network_round_trip_witness :
    storage_get_network
      (run_ops (storage_save_network store_0 (some net_a1) true).2
        [storage_op.save_endpoint (some ep_e1) true,
          storage_op.delete_endpoint none (some (ascii "e"))])
      (some (ascii "a")) = some net_a1 :=
  network_round_trip store_0 net_a1 (ascii "a") true _ (by decide) (by decide)
    (by
      intro op hop
      simp only [List.mem_cons, List.mem_singleton, List.not_mem_nil, or_false] at hop
      rcases hop with h | h <;> subst h <;> trivial)

/-- C2: for every store state and every endpoint `e`, after
`storage_save_endpoint(e)` succeeds (so `e` has an id), both
`storage_get_endpoint(NULL, e.id)` and `storage_get_endpoint(e.network_id, e.id)`
return `e`. -/
theorem endpoint_round_trip (s : storage) (e : vxlan_endpoint_t) (malloc_ok : Bool)
    (hsave : (storage_save_endpoint s (some e) malloc_ok).1 = true) :
    storage_get_endpoint (storage_save_endpoint s (some e) malloc_ok).2 none e.id = some e ∧
    storage_get_endpoint (storage_save_endpoint s (some e) malloc_ok).2 e.network_id e.id
      = some e := by
  obtain ⟨⟨id, hid⟩, hm⟩ := (save_endpoint_succeeds_iff s e malloc_ok).1 hsave
  subst hm
  rw [save_endpoint_state s e id hid, hid]
  constructor
  · simp [storage_get_endpoint, get_endpoint_loop, network_id_matches]
  · cases hn : e.network_id <;>
      simp [storage_get_endpoint, get_endpoint_loop, network_id_matches, hn]

/-- Witness of C2: `ep_e1` saved into a store that already holds `net_a1`. -/
theorem endpoint_round_trip_witness :
    (storage_save_endpoint store_1 (some ep_e1) true).1 = true ∧
    storage_get_endpoint (storage_save_endpoint store_1 (some ep_e1) true).2 none ep_e1.id
      = some ep_e1 ∧
    storage_get_endpoint (storage_save_endpoint store_1 (some ep_e1) true).2 ep_e1.network_id
      ep_e1.id = some ep_e1 :=
  ⟨by decide, endpoint_round_trip store_1 ep_e1 true (by decide)⟩

/-- C3, as stated, fails: in the state reached from `storage_init` by saving
`net_a1` and `net_a2` under the same id `a`, `storage_delete_network(a)` returns
true and the following `storage_get_network(a)` still finds `net_a1`; likewise
for the endpoints `ep_e1`, `ep_e2` saved under the same id `e`. -/
theorem delete_then_get_finds_older_entry :
    reachable store_2 ∧
    (storage_delete_network store_2 (some (ascii "a"))).1 = true ∧
    storage_get_network (storage_delete_network store_2 (some (ascii "a"))).2
      (some (ascii "a")) = some net_a1 ∧
    reachable store_ep2 ∧
    (storage_delete_endpoint store_ep2 none (some (ascii "e"))).1 = true ∧
    storage_get_endpoint (storage_delete_endpoint store_ep2 none (some (ascii "e"))).2 none
      (some (ascii "e")) = some ep_e1 := by
  refine ⟨⟨[storage_op.save_network (some net_a1) true,
      storage_op.save_network (some net_a2) true], rfl⟩, by decide, by decide,
    ⟨[storage_op.save_endpoint (some ep_e1) true,
      storage_op.save_endpoint (some ep_e2) true], rfl⟩, by decide, by decide⟩

/-- C3 (amended): for every store state and every id, if
`storage_delete_network(id)` returns true, the following
`storage_get_network(id)` reports not-found exactly when the bucket chain of
`id` held a single node under the key `id` before the delete; likewise for
`storage_delete_endpoint(n, id)` and `storage_get_endpoint(n, id)`, counting
the nodes under the key `id` whose endpoint passes the `network_id` test. -/
theorem delete_then_get (s : storage) (n : Option c_string) (id : c_string) :
    ((storage_delete_network s (some id)).1 = true →
      (storage_get_network (storage_delete_network s (some id)).2 (some id) = none ↔
        ((s.networks_table.entries (hash id)).filter
          (fun entry => decide (entry.key = id))).length = 1)) ∧
    ((storage_delete_endpoint s n (some id)).1 = true →
      (storage_get_endpoint (storage_delete_endpoint s n (some id)).2 n (some id) = none ↔
        ((s.endpoints_table.entries (hash id)).filter
          (fun entry =>
            decide (entry.key = id) && network_id_matches n entry.value)).length = 1)) := by
  constructor
  · intro h
    simp only [storage_delete_network] at h
    simp only [storage_delete_network, storage_get_network, set_bucket_entries_same]
    exact get_after_delete_network_loop id _ h
  · intro h
    simp only [storage_delete_endpoint] at h
    simp only [storage_delete_endpoint, storage_get_endpoint, set_bucket_entries_same]
    exact get_after_delete_endpoint_loop n id _ h

/-- Witness of C3 (amended): with `net_a1` saved once, delete then get reports
not-found; with `ep_e1` saved once, likewise. -/
theorem delete_then_get_witness :
    storage_get_network (storage_delete_network store_1 (some (ascii "a"))).2
      (some (ascii "a")) = none ∧
    storage_get_endpoint
      (storage_delete_endpoint (storage_save_endpoint store_0 (some ep_e1) true).2
        (some (ascii "a")) (some (ascii "e"))).2
      (some (ascii "a")) (some (ascii "e")) = none :=
  ⟨((delete_then_get store_1 none (ascii "a")).1 (by decide)).2 (by decide),
    ((delete_then_get (storage_save_endpoint store_0 (some ep_e1) true).2 (some (ascii "a"))
      (ascii "e")).2 (by decide)).2 (by decide)⟩

/-- C10: for every store state, saving `e1` and then `e2` under the same id
puts both nodes at the head of the bucket chain of that id, `e2` first, in
front of the nodes already there, and `storage_get_network(id)` returns
`e2`. -/
theorem save_does_not_replace (s : storage) (e1 e2 : vxlan_network_t) (id : c_string)
    (m1 m2 : Bool) (h1 : e1.id = some id) (h2 : e2.id = some id)
    (hs1 : (storage_save_network s (some e1) m1).1 = true)
    (hs2 : (storage_save_network (storage_save_network s (some e1) m1).2 (some e2) m2).1
      = true) :
    (storage_save_network (storage_save_network s (some e1) m1).2 (some e2)
        m2).2.networks_table.entries (hash id)
      = ⟨id, e2⟩ :: ⟨id, e1⟩ :: s.networks_table.entries (hash id) ∧
    storage_get_network
      (storage_save_network (storage_save_network s (some e1) m1).2 (some e2) m2).2 (some id)
      = some e2 := by
  have hm1 : m1 = true := ((save_network_succeeds_iff s e1 m1).1 hs1).2
  subst hm1
  have hm2 : m2 = true := ((save_network_succeeds_iff _ e2 m2).1 hs2).2
  subst hm2
  rw [save_network_state _ e2 id h2, save_network_state s e1 id h1]
  simp [storage_get_network, get_network_loop]

/-- Witness of C10: `net_a1` then `net_a2`, both with id `a`, saved into the
empty store. -/
theorem save_does_not_replace_witness :
    (storage_save_network (storage_save_network store_0 (some net_a1) true).2 (some net_a2)
        true).2.networks_table.entries (hash (ascii "a"))
      = ⟨ascii "a", net_a2⟩ :: ⟨ascii "a", net_a1⟩ ::
          store_0.networks_table.entries (hash (ascii "a")) ∧
    storage_get_network
      (storage_save_network (storage_save_network store_0 (some net_a1) true).2 (some net_a2)
        true).2 (some (ascii "a")) = some net_a2 :=
  save_does_not_replace store_0 net_a1 net_a2 (ascii "a") true true (by decide) (by decide)
    (by decide) (by decide)

/-- C4: for every store state and every present `network_id` `n`, an array
returned by `storage_list_endpoints(n, &count)` is the list of the stored
endpoints whose `network_id` equals `n` (each node of each chain once, in
bucket order, none with another `network_id`) and `count` is its length; and
when no `realloc` fails the call does return them: the array holds exactly
those endpoints (it is NULL when there is none) and `count` is their number. -/
theorem list_endpoints_filter (s : storage) (n : c_string) (count_in : Nat)
    (realloc_ok : Nat → Bool) :
    (∀ arr, (storage_list_endpoints s (some n) count_in realloc_ok).1 = some arr →
      arr = (stored s.endpoints_table).filter
          (fun endpoint => decide (endpoint.network_id = some n)) ∧
        (storage_list_endpoints s (some n) count_in realloc_ok).2 = arr.length) ∧
    ((∀ c, realloc_ok c = true) →
      (storage_list_endpoints s (some n) count_in realloc_ok).1.getD [] =
          (stored s.endpoints_table).filter
            (fun endpoint => decide (endpoint.network_id = some n)) ∧
        (storage_list_endpoints s (some n) count_in realloc_ok).2 =
          ((stored s.endpoints_table).filter
            (fun endpoint => decide (endpoint.network_id = some n))).length) := by
  constructor
  · intro arr h
    exact list_table_some realloc_ok _ s.endpoints_table arr h
  · intro hall
    simp only [storage_list_endpoints]
    rw [list_table_all_ok realloc_ok hall]
    constructor
    · cases hm : (stored s.endpoints_table).filter
          (fun endpoint => decide (endpoint.network_id = some n)) with
      | nil => simp
      | cons a l => simp
    · simp only []

/-- Witness of C4: with `ep_e1` and `ep_e2` stored, both on network `a`, and no
`realloc` failing, listing network `a` returns the two endpoints and count 2. -/
theorem list_endpoints_filter_witness :
    (∀ c : Nat, (fun _ : Nat => true) c = true) ∧
    (storage_list_endpoints store_ep2 (some (ascii "a")) 0 (fun _ => true)).1.getD []
      = [ep_e2, ep_e1] ∧
    (storage_list_endpoints store_ep2 (some (ascii "a")) 0 (fun _ => true)).2 = 2 := by
  have h := (list_endpoints_filter store_ep2 (ascii "a") 0 (fun _ => true)).2 (fun _ => rfl)
  rw [stored_store_ep2] at h
  have hf : [ep_e2, ep_e1].filter (fun endpoint => decide (endpoint.network_id = some (ascii "a")))
      = [ep_e2, ep_e1] := by decide
  rw [hf] at h
  exact ⟨fun _ => rfl, h.1, h.2⟩

/-! ## Claims on the constructors -/

/-- C5: when every allocation succeeds, `vxlan_create_network` returns a
network if and only if `tenant_id` and `name` are present and
`1 <= vni <= 2^24 - 1`; in particular `vni = 0` and `vni = 2^24` fail, and, for
present `tenant_id` and `name`, `vni = 1` and `vni = 2^24 - 1` succeed. -/
theorem create_network_vni_boundary (env : create_env) (halloc : alloc_succeeds env)
    (tenant_id name description : Option c_string) (vni : Nat) :
    ((vxlan_create_network env tenant_id name vni description).isSome = true ↔
      tenant_id.isSome = true ∧ name.isSome = true ∧ 1 ≤ vni ∧ vni ≤ 2 ^ 24 - 1) ∧
    vxlan_create_network env tenant_id name 0 description = none ∧
    vxlan_create_network env tenant_id name (2 ^ 24) description = none ∧
    (tenant_id.isSome = true → name.isSome = true →
      (vxlan_create_network env tenant_id name 1 description).isSome = true ∧
      (vxlan_create_network env tenant_id name (2 ^ 24 - 1) description).isSome = true) := by
  have key : ∀ v : Nat, (vxlan_create_network env tenant_id name v description).isSome = true ↔
      tenant_id.isSome = true ∧ name.isSome = true ∧ 1 ≤ v ∧ v ≤ 2 ^ 24 - 1 := by
    intro v
    constructor
    · intro h
      obtain ⟨net, hnet⟩ := Option.isSome_iff_exists.1 h
      obtain ⟨tenant, nm, id, ts, ht, hn, h1, h2, -, -, -⟩ :=
        create_network_some env tenant_id name description v net hnet
      simp only [MAX_VNI] at h2
      refine ⟨by simp [ht], by simp [hn], h1, ?_⟩
      omega
    · rintro ⟨ht, hn, h1, h2⟩
      obtain ⟨tenant, rfl⟩ := Option.isSome_iff_exists.1 ht
      obtain ⟨nm, rfl⟩ := Option.isSome_iff_exists.1 hn
      have h2b : v ≤ MAX_VNI := by simp only [MAX_VNI]; omega
      obtain ⟨id, ts, -, -, hc⟩ := create_network_ok env halloc tenant nm description v h1 h2b
      simp [hc]
  have none_of : ∀ v : Nat, ¬ (1 ≤ v ∧ v ≤ 2 ^ 24 - 1) →
      vxlan_create_network env tenant_id name v description = none := by
    intro v hv
    cases hc : vxlan_create_network env tenant_id name v description with
    | none => rfl
    | some net =>
      have := (key v).1 (by simp [hc])
      exact absurd ⟨this.2.2.1, this.2.2.2⟩ hv
  refine ⟨key vni, none_of 0 (by omega), none_of (2 ^ 24) (by omega), ?_⟩
  intro ht hn
  exact ⟨(key 1).2 ⟨ht, hn, by omega, by omega⟩,
    (key (2 ^ 24 - 1)).2 ⟨ht, hn, by omega, by omega⟩⟩

/-- Witness of C5: with `env_ok`, tenant `t1`, name `n1`, the call with
`vni = 0` fails and the call with `vni = 1` succeeds. -/
theorem create_network_vni_boundary_witness :
    alloc_succeeds env_ok ∧
    vxlan_create_network env_ok (some (ascii "t1")) (some (ascii "n1")) 0 none = none ∧
    (vxlan_create_network env_ok (some (ascii "t1")) (some (ascii "n1")) 1 none).isSome
      = true :=
  ⟨⟨rfl, rfl, fun _ => rfl, rfl⟩,
    (create_network_vni_boundary env_ok ⟨rfl, rfl, fun _ => rfl, rfl⟩ (some (ascii "t1"))
      (some (ascii "n1")) none 1000).2.1,
    ((create_network_vni_boundary env_ok ⟨rfl, rfl, fun _ => rfl, rfl⟩ (some (ascii "t1"))
      (some (ascii "n1")) none 1000).2.2.2 rfl rfl).1⟩

/-- C6: when every allocation succeeds, `vxlan_create_endpoint` fails if and
only if one of its five string parameters is absent; the store is no input of
the call, so it succeeds on five present strings also when the store holds no
network under the given `network_id`. -/
theorem create_endpoint_fails_iff_absent (env : create_env) (halloc : alloc_succeeds env)
    (network_id mac_address ip_address host_id vtep_ip : Option c_string) (s : storage) :
    (vxlan_create_endpoint env network_id mac_address ip_address host_id vtep_ip = none ↔
      network_id = none ∨ mac_address = none ∨ ip_address = none ∨ host_id = none ∨
        vtep_ip = none) ∧
    (∀ nid mac ip host vtep : c_string, storage_get_network s (some nid) = none →
      (vxlan_create_endpoint env (some nid) (some mac) (some ip) (some host)
        (some vtep)).isSome = true) := by
  constructor
  · constructor
    · intro h
      cases network_id <;> cases mac_address <;> cases ip_address <;> cases host_id <;>
        cases vtep_ip <;> try (simp; done)
      rename_i nid mac ip host vtep
      obtain ⟨id, ts, -, -, hc⟩ := create_endpoint_ok env halloc nid mac ip host vtep
      rw [hc] at h
      cases h
    · exact create_endpoint_none_of_absent env network_id mac_address ip_address host_id vtep_ip
  · intro nid mac ip host vtep _
    obtain ⟨id, ts, -, -, hc⟩ := create_endpoint_ok env halloc nid mac ip host vtep
    simp [hc]

/-- Witness of C6: with `env_ok` and the empty store, which holds no network
`a`, the endpoint on network `a` is created. -/
theorem create_endpoint_fails_iff_absent_witness :
    alloc_succeeds env_ok ∧
    storage_get_network store_0 (some (ascii "a")) = none ∧
    (vxlan_create_endpoint env_ok (some (ascii "a")) (some (ascii "00:11:22:33:44:55"))
      (some (ascii "192.168.1.100")) (some (ascii "h1")) (some (ascii "10.0.0.1"))).isSome
      = true :=
  ⟨⟨rfl, rfl, fun _ => rfl, rfl⟩, by decide,
    (create_endpoint_fails_iff_absent env_ok ⟨rfl, rfl, fun _ => rfl, rfl⟩ none none none none
      none store_0).2 (ascii "a") (ascii "00:11:22:33:44:55") (ascii "192.168.1.100")
      (ascii "h1") (ascii "10.0.0.1") (by decide)⟩

/-- C7, as stated, fails: with every allocation succeeding,
`vxlan_create_endpoint` on network `a` with the empty string for
`mac_address`, `ip_address`, `host_id` and `vtep_ip` returns an endpoint that
holds four empty strings. -/
theorem create_endpoint_accepts_empty_strings :
    alloc_succeeds env_ok ∧
    vxlan_create_endpoint env_ok (some (ascii "a")) (some []) (some []) (some []) (some []) =
      some ⟨some (ascii "uuid-1"), some (ascii "a"), some [], some [], some [], some [],
        some (ascii "2024-01-01T00:00:00Z"), some (ascii "2024-01-01T00:00:00Z")⟩ :=
  ⟨⟨rfl, rfl, fun _ => rfl, rfl⟩, by decide⟩

/-- C7 (amended): `vxlan_create_endpoint` checks presence as non-null only. It
rejects every call in which `mac_address`, `ip_address`, `host_id` or
`vtep_ip` is NULL; when every allocation succeeds it accepts every call with
five present strings, the empty string included, and stores each string as
given. -/
theorem create_endpoint_presence_is_non_null (env : create_env)
    (network_id mac_address ip_address host_id vtep_ip : Option c_string) :
    ((mac_address = none ∨ ip_address = none ∨ host_id = none ∨ vtep_ip = none) →
      vxlan_create_endpoint env network_id mac_address ip_address host_id vtep_ip = none) ∧
    (alloc_succeeds env → ∀ nid mac ip host vtep : c_string,
      ∃ ep, vxlan_create_endpoint env (some nid) (some mac) (some ip) (some host) (some vtep)
          = some ep ∧
        ep.network_id = some nid ∧ ep.mac_address = some mac ∧ ep.ip_address = some ip ∧
        ep.host_id = some host ∧ ep.vtep_ip = some vtep) := by
  constructor
  · intro h
    exact create_endpoint_none_of_absent env network_id mac_address ip_address host_id vtep_ip
      (Or.inr h)
  · intro halloc nid mac ip host vtep
    obtain ⟨id, ts, -, -, hc⟩ := create_endpoint_ok env halloc nid mac ip host vtep
    exact ⟨_, hc, rfl, rfl, rfl, rfl, rfl⟩

/-- Witness of C7 (amended): a NULL `mac_address` is rejected, and with
`env_ok` an empty `mac_address` is accepted and stored as the empty string. -/
theorem create_endpoint_presence_is_non_null_witness :
    vxlan_create_endpoint env_ok (some (ascii "a")) none (some (ascii "192.168.1.100"))
      (some (ascii "h1")) (some (ascii "10.0.0.1")) = none ∧
    ∃ ep, vxlan_create_endpoint env_ok (some (ascii "a")) (some [])
        (some (ascii "192.168.1.100")) (some (ascii "h1")) (some (ascii "10.0.0.1")) = some ep ∧
      ep.network_id = some (ascii "a") ∧ ep.mac_address = some [] ∧
      ep.ip_address = some (ascii "192.168.1.100") ∧ ep.host_id = some (ascii "h1") ∧
      ep.vtep_ip = some (ascii "10.0.0.1") :=
  ⟨(create_endpoint_presence_is_non_null env_ok (some (ascii "a")) none
      (some (ascii "192.168.1.100")) (some (ascii "h1")) (some (ascii "10.0.0.1"))).1
      (Or.inl rfl),
    (create_endpoint_presence_is_non_null env_ok none none none none none).2
      ⟨rfl, rfl, fun _ => rfl, rfl⟩ (ascii "a") [] (ascii "192.168.1.100") (ascii "h1")
      (ascii "10.0.0.1")⟩

/-- C8: every network returned by `vxlan_create_network` and every endpoint
returned by `vxlan_create_endpoint` has `created_at` and `updated_at` both
equal to the one timestamp captured by the call. -/
theorem created_at_eq_updated_at (env : create_env)
    (tenant_id name description : Option c_string) (vni : Nat)
    (network_id mac_address ip_address host_id vtep_ip : Option c_string) :
    (∀ net, vxlan_create_network env tenant_id name vni description = some net →
      net.created_at = net.updated_at ∧ net.created_at = env.timestamp ∧
        net.created_at.isSome = true) ∧
    (∀ ep, vxlan_create_endpoint env network_id mac_address ip_address host_id vtep_ip
        = some ep →
      ep.created_at = ep.updated_at ∧ ep.created_at = env.timestamp ∧
        ep.created_at.isSome = true) := by
  constructor
  · intro net h
    obtain ⟨tenant, nm, id, ts, -, -, -, -, -, hts, rfl⟩ :=
      create_network_some env tenant_id name description vni net h
    simp [hts]
  · intro ep h
    obtain ⟨nid, mac, ip, host, vtep, id, ts, -, -, -, -, -, -, hts, rfl⟩ :=
      create_endpoint_some env network_id mac_address ip_address host_id vtep_ip ep h
    simp [hts]

/-- Witness of C8: the network created with `env_ok`, tenant `t1`, name `n1`
and `vni = 1000`. -/
theorem created_at_eq_updated_at_witness :
    vxlan_create_network env_ok (some (ascii "t1")) (some (ascii "n1")) 1000 none
      = some net_created ∧
    net_created.created_at = net_created.updated_at ∧
    net_created.created_at = env_ok.timestamp ∧ net_created.created_at.isSome = true :=
  ⟨by decide,
    (created_at_eq_updated_at env_ok (some (ascii "t1")) (some (ascii "n1")) none 1000 none none
      none none none).1 net_created (by decide)⟩

/-- C9: every network returned by `vxlan_create_network(tenant_id, name, vni,
description)` has `tenant_id`, `name` and `vni` equal to the arguments and
`description` equal to the argument: absent exactly when the argument is
absent, and the empty string when the argument is the empty string. -/
theorem create_network_copies_arguments (env : create_env)
    (tenant_id name description : Option c_string) (vni : Nat) (net : vxlan_network_t)
    (h : vxlan_create_network env tenant_id name vni description = some net) :
    net.tenant_id = tenant_id ∧ net.name = name ∧ net.vni = vni ∧
    net.description = description ∧
    (net.description = none ↔ description = none) ∧
    (description = some [] → net.description = some []) := by
  obtain ⟨tenant, nm, id, ts, rfl, rfl, -, -, -, -, rfl⟩ :=
    create_network_some env tenant_id name description vni net h
  simp

/-- Witness of C9: the network created with `env_ok`, tenant `t1`, name `n1`,
`vni = 1000` and the empty string as description keeps the empty string. -/
theorem create_network_copies_arguments_witness :
    vxlan_create_network env_ok (some (ascii "t1")) (some (ascii "n1")) 1000 (some [])
      = some net_created_blank ∧
    net_created_blank.tenant_id = some (ascii "t1") ∧
    net_created_blank.name = some (ascii "n1") ∧ net_created_blank.vni = 1000 ∧
    net_created_blank.description = some [] ∧
    (net_created_blank.description = none ↔ (some [] : Option c_string) = none) ∧
    ((some [] : Option c_string) = some [] → net_created_blank.description = some []) :=
  ⟨by decide,
    create_network_copies_arguments env_ok (some (ascii "t1")) (some (ascii "n1")) (some [])
      1000 net_created_blank (by decide)⟩

/-! ## Further lemmas on the store -/

theorem set_bucket_self {α : Type} (t : hash_table_t α) (h : Nat) :
    set_bucket t h (t.entries h) = t := by
  cases t with
  | mk entries =>
    simp only [set_bucket]
    congr 1
    funext i
    by_cases hi : i = h
    · simp [hi]
    · simp [hi]

theorem delete_network_loop_no_key (k : c_string)
    (chain : List (hash_entry_t vxlan_network_t)) (h : ∀ entry ∈ chain, entry.key ≠ k) :
    delete_network_loop k chain = (false, chain) := by
  induction chain with
  | nil => rfl
  | cons entry next ih =>
    have hk : entry.key ≠ k := h entry (List.mem_cons_self _ _)
    have ih2 := ih (fun e he => h e (List.mem_cons_of_mem _ he))
    simp only [delete_network_loop, if_neg hk, ih2]

theorem get_network_loop_no_key (k : c_string)
    (chain : List (hash_entry_t vxlan_network_t)) (h : ∀ entry ∈ chain, entry.key ≠ k) :
    get_network_loop k chain = none := by
  induction chain with
  | nil => rfl
  | cons entry next ih =>
    have hk : entry.key ≠ k := h entry (List.mem_cons_self _ _)
    have ih2 := ih (fun e he => h e (List.mem_cons_of_mem _ he))
    simp only [get_network_loop, if_neg hk, ih2]

theorem endpoint_node_matches_iff (n : Option c_string) (id : c_string)
    (entry : hash_entry_t vxlan_endpoint_t) :
    endpoint_node_matches n id entry = true ↔
      entry.key = id ∧ network_id_matches n entry.value = true := by
  simp [endpoint_node_matches]

/-- The lookup loop returns the entity of the first node that passes the test. -/
theorem get_endpoint_loop_eq_find (n : Option c_string) (id : c_string)
    (chain : List (hash_entry_t vxlan_endpoint_t)) :
    get_endpoint_loop n id chain =
      (chain.find? (endpoint_node_matches n id)).map (fun entry => entry.value) := by
  induction chain with
  | nil => rfl
  | cons entry next ih =>
    by_cases hm : entry.key = id ∧ network_id_matches n entry.value = true
    · have hb : endpoint_node_matches n id entry = true :=
        (endpoint_node_matches_iff n id entry).2 hm
      simp only [get_endpoint_loop, if_pos hm, List.find?_cons, hb, Option.map_some']
    · have hb : endpoint_node_matches n id entry = false := by
        cases hc : endpoint_node_matches n id entry with
        | false => rfl
        | true => exact absurd ((endpoint_node_matches_iff n id entry).1 hc) hm
      simp only [get_endpoint_loop, if_neg hm, List.find?_cons, hb, ih]

/-- The delete loop reports whether some node passes the test and unlinks the
first such node. -/
theorem delete_endpoint_loop_eq (n : Option c_string) (id : c_string)
    (chain : List (hash_entry_t vxlan_endpoint_t)) :
    delete_endpoint_loop n id chain =
      (chain.any (endpoint_node_matches n id), chain.eraseP (endpoint_node_matches n id)) := by
  induction chain with
  | nil => rfl
  | cons entry next ih =>
    by_cases hm : entry.key = id ∧ network_id_matches n entry.value = true
    · have hb : endpoint_node_matches n id entry = true :=
        (endpoint_node_matches_iff n id entry).2 hm
      simp only [delete_endpoint_loop, if_pos hm, List.any_cons, hb, Bool.true_or,
        List.eraseP_cons_of_pos]
    · have hb : endpoint_node_matches n id entry = false := by
        cases hc : endpoint_node_matches n id entry with
        | false => rfl
        | true => exact absurd ((endpoint_node_matches_iff n id entry).1 hc) hm
      have hb2 : ¬ endpoint_node_matches n id entry = true := by simp [hb]
      simp only [delete_endpoint_loop, if_neg hm, ih, List.any_cons, hb, Bool.false_or,
        List.eraseP_cons_of_neg hb2]

theorem save_network_endpoints_table (s : storage) (network : Option vxlan_network_t)
    (malloc_ok : Bool) :
    (storage_save_network s network malloc_ok).2.endpoints_table = s.endpoints_table := by
  cases network with
  | none => rfl
  | some net => cases hid : net.id <;> cases malloc_ok <;> simp [storage_save_network, hid]

theorem delete_network_endpoints_table (s : storage) (id : Option c_string) :
    (storage_delete_network s id).2.endpoints_table = s.endpoints_table := by
  cases id <;> rfl

theorem delete_network_loop_subset (k : c_string)
    (chain : List (hash_entry_t vxlan_network_t)) :
    ∀ entry ∈ (delete_network_loop k chain).2, entry ∈ chain := by
  induction chain with
  | nil => intro entry h; exact h
  | cons e next ih =>
    intro entry h
    by_cases hk : e.key = k
    · simp only [delete_network_loop, if_pos hk] at h
      exact List.mem_cons_of_mem _ h
    · simp only [delete_network_loop, if_neg hk] at h
      rcases List.mem_cons.1 h with h1 | h1
      · rw [h1]; exact List.mem_cons_self _ _
      · exact List.mem_cons_of_mem _ (ih entry h1)

theorem well_bucketed_apply_op (s : storage) (op : storage_op) (hs : well_bucketed s) :
    well_bucketed (apply_op s op) := by
  obtain ⟨hn, he⟩ := hs
  cases op with
  | save_network network malloc_ok =>
    refine ⟨?_, ?_⟩
    · cases network with
      | none => exact hn
      | some net =>
        cases hid : net.id with
        | none => simpa [apply_op, storage_save_network, hid] using hn
        | some id =>
          cases malloc_ok with
          | false => simpa [apply_op, storage_save_network, hid] using hn
          | true =>
            intro i entry hmem
            simp only [apply_op, save_network_state s net id hid] at hmem
            by_cases hi : i = hash id
            · subst hi
              rw [set_bucket_entries_same] at hmem
              rcases List.mem_cons.1 hmem with h1 | h1
              · rw [h1]
              · exact hn _ entry h1
            · rw [set_bucket_entries_other _ _ _ _ hi] at hmem
              exact hn i entry hmem
    · intro i entry hmem
      simp only [apply_op, save_network_endpoints_table] at hmem
      exact he i entry hmem
  | delete_network network_id =>
    refine ⟨?_, ?_⟩
    · cases network_id with
      | none => exact hn
      | some id =>
        intro i entry hmem
        simp only [apply_op, storage_delete_network] at hmem
        by_cases hi : i = hash id
        · subst hi
          rw [set_bucket_entries_same] at hmem
          exact hn _ entry (delete_network_loop_subset id _ entry hmem)
        · rw [set_bucket_entries_other _ _ _ _ hi] at hmem
          exact hn i entry hmem
    · intro i entry hmem
      simp only [apply_op, delete_network_endpoints_table] at hmem
      exact he i entry hmem
  | save_endpoint endpoint malloc_ok =>
    refine ⟨?_, ?_⟩
    · intro i entry hmem
      simp only [apply_op, save_endpoint_networks_table] at hmem
      exact hn i entry hmem
    · cases endpoint with
      | none => exact he
      | some ep =>
        cases hid : ep.id with
        | none => simpa [apply_op, storage_save_endpoint, hid] using he
        | some id =>
          cases malloc_ok with
          | false => simpa [apply_op, storage_save_endpoint, hid] using he
          | true =>
            intro i entry hmem
            simp only [apply_op, save_endpoint_state s ep id hid] at hmem
            by_cases hi : i = hash id
            · subst hi
              rw [set_bucket_entries_same] at hmem
              rcases List.mem_cons.1 hmem with h1 | h1
              · rw [h1]
              · exact he _ entry h1
            · rw [set_bucket_entries_other _ _ _ _ hi] at hmem
              exact he i entry hmem
  | delete_endpoint n endpoint_id =>
    refine ⟨?_, ?_⟩
    · intro i entry hmem
      simp only [apply_op, delete_endpoint_networks_table] at hmem
      exact hn i entry hmem
    · cases endpoint_id with
      | none => exact he
      | some id =>
        intro i entry hmem
        simp only [apply_op, storage_delete_endpoint, delete_endpoint_loop_eq] at hmem
        by_cases hi : i = hash id
        · subst hi
          rw [set_bucket_entries_same] at hmem
          exact he _ entry (List.mem_of_mem_eraseP hmem)
        · rw [set_bucket_entries_other _ _ _ _ hi] at hmem
          exact he i entry hmem

theorem well_bucketed_run_ops (ops : List storage_op) :
    ∀ s : storage, well_bucketed s → well_bucketed (run_ops s ops) := by
  induction ops with
  | nil => intro s hs; exact hs
  | cons op rest ih =>
    intro s hs
    exact ih (apply_op s op) (well_bucketed_apply_op s op hs)

/-- In every reachable state each node sits in the bucket of its key. -/
theorem reachable_well_bucketed (s : storage) (hs : reachable s) : well_bucketed s := by
  obtain ⟨ops, rfl⟩ := hs
  apply well_bucketed_run_ops
  constructor <;> intro i entry hmem <;> cases hmem

theorem network_id_matches_iff (n : Option c_string) (endpoint : vxlan_endpoint_t) :
    network_id_matches n endpoint = true ↔ (n = none ∨ endpoint.network_id = n) := by
  cases n with
  | none => simp [network_id_matches]
  | some x => simp [network_id_matches]

theorem stored_store_2 : stored store_2.networks_table = [net_a2, net_a1] := by
  rw [stored_single_bucket store_2.networks_table (hash (ascii "a")) (hash_lt _)]
  · decide
  · intro i hi
    simp [store_2, store_1, store_0, storage_init, zeroed_table, storage_save_network, net_a1,
      net_a2, set_bucket, hi]

theorem store_1_keys (i : Nat) (entry : hash_entry_t vxlan_network_t)
    (h : entry ∈ store_1.networks_table.entries i) : entry.key = ascii "a" := by
  by_cases hi : i = hash (ascii "a")
  · simp [store_1, store_0, storage_init, zeroed_table, storage_save_network, net_a1,
      set_bucket, hi] at h
    rw [h]
  · simp [store_1, store_0, storage_init, zeroed_table, storage_save_network, net_a1,
      set_bucket, hi] at h

/-! ## Claims on the store, second group -/

/-- C12: for every store state and every key that no stored node carries,
`storage_get_network` returns not-found and `storage_delete_network` returns
false with the store unchanged; the same holds for `storage_get_endpoint` and
`storage_delete_endpoint`, whatever `network_id` is passed. The get functions
write nothing, so they have no state to return. -/
theorem missing_key_is_negative (s : storage) (k : c_string) (n : Option c_string) :
    ((∀ i, i < HASH_SIZE → ∀ entry ∈ s.networks_table.entries i, entry.key ≠ k) →
      storage_get_network s (some k) = none ∧
        storage_delete_network s (some k) = (false, s)) ∧
    ((∀ i, i < HASH_SIZE → ∀ entry ∈ s.endpoints_table.entries i, entry.key ≠ k) →
      storage_get_endpoint s n (some k) = none ∧
        storage_delete_endpoint s n (some k) = (false, s)) := by
  constructor
  · intro h
    have hc := h (hash k) (hash_lt k)
    refine ⟨get_network_loop_no_key k _ hc, ?_⟩
    simp only [storage_delete_network, delete_network_loop_no_key k _ hc, set_bucket_self]
  · intro h
    have hc : ∀ entry ∈ s.endpoints_table.entries (hash k),
        ¬ endpoint_node_matches n k entry = true := by
      intro entry hmem hm
      exact h (hash k) (hash_lt k) entry hmem ((endpoint_node_matches_iff n k entry).1 hm).1
    constructor
    · simp only [storage_get_endpoint, get_endpoint_loop_eq_find]
      rw [List.find?_eq_none.2 hc]
      rfl
    · have hany : (s.endpoints_table.entries (hash k)).any (endpoint_node_matches n k)
          = false := by
        rw [List.any_eq_false]
        exact hc
      simp only [storage_delete_endpoint, delete_endpoint_loop_eq, hany,
        List.eraseP_of_forall_not hc, set_bucket_self]

/-- Witness of C12: the store holding only `net_a1` under id `a`, asked for
the key `b`. -/
theorem missing_key_is_negative_witness :
    storage_get_network store_1 (some (ascii "b")) = none ∧
    storage_delete_network store_1 (some (ascii "b")) = (false, store_1) :=
  (missing_key_is_negative store_1 (ascii "b") none).1
    (fun i _ entry hmem hk => by
      have h := store_1_keys i entry hmem
      rw [hk] at h
      revert h
      decide)

/-- C13: for every store state, `storage_save_network` and
`storage_delete_network` leave the endpoint table unchanged, so after a network
delete `storage_get_endpoint` and `storage_list_endpoints` return what they
returned before, for every argument; and `storage_save_endpoint` and
`storage_delete_endpoint` leave the network table unchanged, so
`storage_get_network` and `storage_list_networks` return what they returned
before. -/
theorem no_cascade_between_tables (s : storage) (network : Option vxlan_network_t)
    (endpoint : Option vxlan_endpoint_t) (malloc_ok : Bool)
    (deleted n eid tenant_id : Option c_string) (count_in : Nat) (realloc_ok : Nat → Bool) :
    (storage_save_network s network malloc_ok).2.endpoints_table = s.endpoints_table ∧
    (storage_delete_network s deleted).2.endpoints_table = s.endpoints_table ∧
    storage_get_endpoint (storage_delete_network s deleted).2 n eid
      = storage_get_endpoint s n eid ∧
    storage_list_endpoints (storage_delete_network s deleted).2 n count_in realloc_ok
      = storage_list_endpoints s n count_in realloc_ok ∧
    (storage_save_endpoint s endpoint malloc_ok).2.networks_table = s.networks_table ∧
    (storage_delete_endpoint s n eid).2.networks_table = s.networks_table ∧
    storage_get_network (storage_delete_endpoint s n eid).2 deleted
      = storage_get_network s deleted ∧
    storage_list_networks (storage_delete_endpoint s n eid).2 tenant_id realloc_ok
      = storage_list_networks s tenant_id realloc_ok := by
  refine ⟨save_network_endpoints_table s network malloc_ok,
    delete_network_endpoints_table s deleted, ?_, ?_,
    save_endpoint_networks_table s endpoint malloc_ok,
    delete_endpoint_networks_table s n eid, ?_, ?_⟩
  · simp only [storage_get_endpoint, delete_network_endpoints_table]
  · simp only [storage_list_endpoints, delete_network_endpoints_table]
  · simp only [storage_get_network, delete_endpoint_networks_table]
  · simp only [storage_list_networks, delete_endpoint_networks_table]

/-- C14: for every store state, an array returned by
`storage_list_networks(tenant_id, &count)` is the list of the stored networks
that pass the tenant test, with `count` its length, and when no `realloc` fails
the call does return them (a NULL array when there is none); the test passes
every network when `tenant_id` is NULL and exactly the networks whose
`tenant_id` equals `t` when it is `t`. -/
theorem list_networks_filter (s : storage) (tenant_id : Option c_string)
    (realloc_ok : Nat → Bool) :
    (∀ arr, (storage_list_networks s tenant_id realloc_ok).1 = some arr →
      arr = (stored s.networks_table).filter (tenant_id_matches tenant_id) ∧
        (storage_list_networks s tenant_id realloc_ok).2 = arr.length) ∧
    ((∀ c, realloc_ok c = true) →
      (storage_list_networks s tenant_id realloc_ok).1.getD [] =
          (stored s.networks_table).filter (tenant_id_matches tenant_id) ∧
        (storage_list_networks s tenant_id realloc_ok).2 =
          ((stored s.networks_table).filter (tenant_id_matches tenant_id)).length) ∧
    (stored s.networks_table).filter (tenant_id_matches none) = stored s.networks_table ∧
    (∀ (t : c_string) (net : vxlan_network_t),
      tenant_id_matches (some t) net = true ↔ net.tenant_id = some t) := by
  refine ⟨?_, ?_, ?_, ?_⟩
  · intro arr h
    exact list_table_some realloc_ok _ s.networks_table arr h
  · intro hall
    simp only [storage_list_networks]
    rw [list_table_all_ok realloc_ok hall]
    constructor
    · cases hm : (stored s.networks_table).filter (tenant_id_matches tenant_id) with
      | nil => simp
      | cons a l => simp
    · simp only []
  · apply List.filter_eq_self.2
    intro net _
    rfl
  · intro t net
    simp [tenant_id_matches]

/-- Witness of C14: with `net_a1` and `net_a2` stored and no `realloc` failing,
listing without a tenant returns both networks and count 2. -/
theorem list_networks_filter_witness :
    (∀ c : Nat, (fun _ : Nat => true) c = true) ∧
    (storage_list_networks store_2 none (fun _ => true)).1.getD [] = [net_a2, net_a1] ∧
    (storage_list_networks store_2 none (fun _ => true)).2 = 2 := by
  have h := (list_networks_filter store_2 none (fun _ => true)).2.1 (fun _ => rfl)
  rw [(list_networks_filter store_2 none (fun _ => true)).2.2.1, stored_store_2] at h
  exact ⟨fun _ => rfl, h.1, h.2⟩

/-- C16: `storage_get_endpoint(NULL, id)` returns the endpoint of the first node
of the bucket chain of `id` whose key is `id`; `storage_get_endpoint(n, id)`
with `n` present returns the endpoint of the first node whose key is `id` and
whose endpoint has `network_id` equal to `n`, and not-found exactly when no
node of the chain satisfies both, whatever nodes with key `id` and another
`network_id` the chain holds. -/
theorem get_endpoint_optional_network_id (s : storage) (n id : c_string) :
    storage_get_endpoint s none (some id) =
      ((s.endpoints_table.entries (hash id)).find?
        (fun entry => decide (entry.key = id))).map (fun entry => entry.value) ∧
    storage_get_endpoint s (some n) (some id) =
      ((s.endpoints_table.entries (hash id)).find?
        (fun entry => decide (entry.key = id) && decide (entry.value.network_id = some n))).map
        (fun entry => entry.value) ∧
    (storage_get_endpoint s (some n) (some id) = none ↔
      ∀ entry ∈ s.endpoints_table.entries (hash id),
        ¬ (entry.key = id ∧ entry.value.network_id = some n)) := by
  have h1 : endpoint_node_matches none id = fun entry => decide (entry.key = id) := by
    funext entry
    simp [endpoint_node_matches, network_id_matches]
  have h2 : endpoint_node_matches (some n) id =
      fun entry => decide (entry.key = id) && decide (entry.value.network_id = some n) := by
    funext entry
    simp [endpoint_node_matches, network_id_matches]
  refine ⟨?_, ?_, ?_⟩
  · simp only [storage_get_endpoint, get_endpoint_loop_eq_find, h1]
  · simp only [storage_get_endpoint, get_endpoint_loop_eq_find, h2]
  · simp only [storage_get_endpoint, get_endpoint_loop_eq_find, h2, Option.map_eq_none',
      List.find?_eq_none]
    simp

/-- C17: in every reachable store state, `storage_delete_endpoint(n, id)`
returns true if and only if some stored node has key `id` and an endpoint that
passes the test (`n` is NULL or the endpoint has `network_id` equal to `n`);
when it returns true the first such node of the bucket chain of `id` is
unlinked and nothing else changes; when it returns false, as when `id` exists
only under another `network_id`, the store is unchanged. -/
theorem delete_endpoint_iff (s : storage) (hs : reachable s) (n : Option c_string)
    (id : c_string) :
    ((storage_delete_endpoint s n (some id)).1 = true ↔
      ∃ i, i < HASH_SIZE ∧ ∃ entry ∈ s.endpoints_table.entries i,
        entry.key = id ∧ (n = none ∨ entry.value.network_id = n)) ∧
    ((storage_delete_endpoint s n (some id)).1 = true →
      (storage_delete_endpoint s n (some id)).2.endpoints_table.entries (hash id) =
          (s.endpoints_table.entries (hash id)).eraseP (endpoint_node_matches n id) ∧
        ((storage_delete_endpoint s n (some id)).2.endpoints_table.entries (hash id)).length
          + 1 = (s.endpoints_table.entries (hash id)).length ∧
        (∀ i, i ≠ hash id →
          (storage_delete_endpoint s n (some id)).2.endpoints_table.entries i =
            s.endpoints_table.entries i) ∧
        (storage_delete_endpoint s n (some id)).2.networks_table = s.networks_table) ∧
    ((storage_delete_endpoint s n (some id)).1 = false →
      (storage_delete_endpoint s n (some id)).2 = s) ∧
    ((∀ i, i < HASH_SIZE → ∀ entry ∈ s.endpoints_table.entries i,
        entry.key = id → ¬ (n = none ∨ entry.value.network_id = n)) →
      storage_delete_endpoint s n (some id) = (false, s)) := by
  have hwb := (reachable_well_bucketed s hs).2
  have hfalse : (s.endpoints_table.entries (hash id)).any (endpoint_node_matches n id) = false →
      storage_delete_endpoint s n (some id) = (false, s) := by
    intro hany
    have hc : ∀ entry ∈ s.endpoints_table.entries (hash id),
        ¬ endpoint_node_matches n id entry = true := List.any_eq_false.1 hany
    simp only [storage_delete_endpoint, delete_endpoint_loop_eq, hany,
      List.eraseP_of_forall_not hc, set_bucket_self]
  have hiff : (storage_delete_endpoint s n (some id)).1 = true ↔
      ∃ i, i < HASH_SIZE ∧ ∃ entry ∈ s.endpoints_table.entries i,
        entry.key = id ∧ (n = none ∨ entry.value.network_id = n) := by
    simp only [storage_delete_endpoint, delete_endpoint_loop_eq, List.any_eq_true]
    constructor
    · rintro ⟨entry, hmem, hm⟩
      obtain ⟨hk, hn⟩ := (endpoint_node_matches_iff n id entry).1 hm
      exact ⟨hash id, hash_lt id, entry, hmem, hk, (network_id_matches_iff n _).1 hn⟩
    · rintro ⟨i, _, entry, hmem, hk, hn⟩
      have hi : hash entry.key = i := hwb i entry hmem
      rw [hk] at hi
      subst hi
      exact ⟨entry, hmem,
        (endpoint_node_matches_iff n id entry).2 ⟨hk, (network_id_matches_iff n _).2 hn⟩⟩
  refine ⟨hiff, ?_, ?_, ?_⟩
  · intro htrue
    have hany : (s.endpoints_table.entries (hash id)).any (endpoint_node_matches n id)
        = true := by
      simpa only [storage_delete_endpoint, delete_endpoint_loop_eq] using htrue
    obtain ⟨entry, hmem, hm⟩ := List.any_eq_true.1 hany
    simp only [storage_delete_endpoint, delete_endpoint_loop_eq, set_bucket_entries_same]
    refine ⟨trivial, ?_, ?_, trivial⟩
    · rw [List.length_eraseP_of_mem hmem hm]
      have : 0 < (s.endpoints_table.entries (hash id)).length := List.length_pos_of_mem hmem
      omega
    · intro i hi
      exact set_bucket_entries_other _ _ _ _ hi
  · intro hf
    apply (congrArg Prod.snd (hfalse ?_))
    cases hany : (s.endpoints_table.entries (hash id)).any (endpoint_node_matches n id) with
    | false => rfl
    | true =>
      simp only [storage_delete_endpoint, delete_endpoint_loop_eq, hany] at hf
      cases hf
  · intro hnone
    apply hfalse
    rw [List.any_eq_false]
    intro entry hmem hm
    obtain ⟨hk, hn⟩ := (endpoint_node_matches_iff n id entry).1 hm
    exact hnone (hash id) (hash_lt id) entry hmem hk ((network_id_matches_iff n _).1 hn)

/-- Witness of C17: with `ep_e1` and `ep_e2` stored under id `e` on network
`a`, a delete of `e` under network `b` returns false and changes nothing. -/
theorem delete_endpoint_iff_witness :
    reachable store_ep2 ∧
    (storage_delete_endpoint store_ep2 (some (ascii "b")) (some (ascii "e"))).1 = false ∧
    (storage_delete_endpoint store_ep2 (some (ascii "b")) (some (ascii "e"))).2 = store_ep2 :=
  ⟨⟨[storage_op.save_endpoint (some ep_e1) true, storage_op.save_endpoint (some ep_e2) true],
      rfl⟩,
    by decide,
    (delete_endpoint_iff store_ep2
      ⟨[storage_op.save_endpoint (some ep_e1) true,
        storage_op.save_endpoint (some ep_e2) true], rfl⟩
      (some (ascii "b")) (ascii "e")).2.2.1 (by decide)⟩

/-! ## The hash function -/

theorem hash_step_of_nonneg (h byte : Nat) :
    hash_step h (byte : Int) = (h * 33 + byte) % 2 ^ 32 := by
  unfold hash_step
  rw [Nat.shiftLeft_eq]
  have h1 : ((((h * 2 ^ 5 % 2 ^ 32 + h) % 2 ^ 32 : Nat) : Int) + (byte : Int)).emod (2 ^ 32)
      = (((h * 2 ^ 5 % 2 ^ 32 + h) % 2 ^ 32 + byte) % 2 ^ 32 : Nat) := by
    show (_ : Int) % _ = _
    push_cast
    rfl
  rw [h1, Int.toNat_ofNat]
  omega

theorem foldl_hash_step_of_nonneg (bytes : List Nat) :
    ∀ h : Nat, (bytes.map char_unsigned).foldl hash_step h =
      bytes.foldl (fun h byte => (h * 33 + byte) % 2 ^ 32) h := by
  induction bytes with
  | nil => intro h; rfl
  | cons b rest ih =>
    intro h
    simp only [List.map_cons, List.foldl_cons, char_unsigned, hash_step_of_nonneg]
    exact ih _

theorem map_char_signed_of_ascii (bytes : List Nat) (h : ∀ b ∈ bytes, b < 128) :
    bytes.map char_signed = bytes.map char_unsigned := by
  apply List.map_congr_left
  intro b hb
  simp [char_signed, char_unsigned, h b hb]

/-- C15, as stated, fails where plain `char` is signed: for the one-byte string
with byte 128, which `*str` yields as -128, `hash` returns 7326 while the fold
over the bytes gives 7582. -/
theorem hash_of_high_byte_differs :
    char_signed 128 = -128 ∧ hash [char_signed 128] = 7326 ∧ djb2_of_bytes [128] = 7582 ∧
    hash [char_signed 128] ≠ djb2_of_bytes [128] := by
  decide

/-- C15 (amended): for every byte string, `hash` is the djb2 fold
`h := (h * 33 + byte) mod 2^32` from 5381 reduced modulo 10007 where plain
`char` is unsigned, and also where it is signed when every byte is below 128;
for every string the result is a bucket index below 10007, and equal keys map
to the same bucket. -/
theorem hash_is_djb2 (bytes : List Nat) :
    hash (bytes.map char_unsigned) = djb2_of_bytes bytes ∧
    ((∀ b ∈ bytes, b < 128) → hash (bytes.map char_signed) = djb2_of_bytes bytes) ∧
    (∀ str : c_string, hash str < 10007) ∧
    (∀ k1 k2 : c_string, k1 = k2 → hash k1 = hash k2) := by
  have hu : hash (bytes.map char_unsigned) = djb2_of_bytes bytes := by
    simp only [hash, djb2_of_bytes, foldl_hash_step_of_nonneg, HASH_SIZE]
  refine ⟨hu, ?_, ?_, ?_⟩
  · intro h
    rw [map_char_signed_of_ascii bytes h]
    exact hu
  · intro str
    exact hash_lt str
  · intro k1 k2 h
    rw [h]

/-- Witness of C15 (amended): the key `a`, byte 97, read through a signed
`char`. -/
theorem hash_is_djb2_witness :
    (∀ b ∈ [97], b < 128) ∧ hash ([97].map char_signed) = djb2_of_bytes [97] :=
  ⟨by decide, (hash_is_djb2 [97]).2.1 (by decide)⟩

/-! ## The list calls without a match or without memory -/

theorem list_scan_no_match {α : Type} (realloc_ok : Nat → Bool) (keep : α → Bool)
    (b : list_buffer α) (chain : List (hash_entry_t α))
    (h : (chain.map (fun entry => entry.value)).filter keep = []) :
    list_scan realloc_ok keep b chain = Except.ok b := by
  induction chain with
  | nil => rfl
  | cons entry next ih =>
    cases hk : keep entry.value with
    | true => simp [List.filter_cons, hk] at h
    | false =>
      simp only [List.map_cons, List.filter_cons, hk] at h
      simp only [list_scan, hk]
      exact ih h

/-- Scanning a chain into the initial buffer when the first `realloc` fails:
the buffer is untouched while nothing passes the filter, and the call gives up
with `*count = 0` at the first entity that does. -/
theorem list_scan_first_realloc_fails {α : Type} (realloc_ok : Nat → Bool)
    (hfail : realloc_ok 16 = false) (keep : α → Bool) (chain : List (hash_entry_t α)) :
    list_scan realloc_ok keep ⟨none, 0, 0⟩ chain = Except.ok ⟨none, 0, 0⟩ ∨
      list_scan realloc_ok keep ⟨none, 0, 0⟩ chain = Except.error 0 := by
  induction chain with
  | nil => exact Or.inl rfl
  | cons entry next ih =>
    cases hk : keep entry.value with
    | true =>
      right
      simp [list_scan, hk, list_append, hfail]
    | false =>
      simp only [list_scan, hk]
      exact ih

theorem list_buckets_first_realloc_fails {α : Type} (realloc_ok : Nat → Bool)
    (hfail : realloc_ok 16 = false) (keep : α → Bool) (t : hash_table_t α) (is : List Nat) :
    list_buckets realloc_ok keep t ⟨none, 0, 0⟩ is = Except.ok ⟨none, 0, 0⟩ ∨
      list_buckets realloc_ok keep t ⟨none, 0, 0⟩ is = Except.error 0 := by
  induction is with
  | nil => exact Or.inl rfl
  | cons i rest ih =>
    rcases list_scan_first_realloc_fails realloc_ok hfail keep (t.entries i) with h | h
    · simp only [list_buckets, h]
      exact ih
    · right
      simp only [list_buckets, h]

/-- When the first `realloc` fails, a list call returns a NULL array and
`*count = 0`, whatever the table holds. -/
theorem list_table_first_realloc_fails {α : Type} (realloc_ok : Nat → Bool)
    (hfail : realloc_ok 16 = false) (keep : α → Bool) (t : hash_table_t α) :
    list_table realloc_ok keep t = (none, 0) := by
  unfold list_table
  rcases list_buckets_first_realloc_fails realloc_ok hfail keep t (List.range HASH_SIZE)
    with h | h <;> rw [h]

theorem list_buckets_no_match {α : Type} (realloc_ok : Nat → Bool) (keep : α → Bool)
    (t : hash_table_t α) (b : list_buffer α) (is : List Nat)
    (h : ∀ i ∈ is, ((t.entries i).map (fun entry => entry.value)).filter keep = []) :
    list_buckets realloc_ok keep t b is = Except.ok b := by
  induction is with
  | nil => rfl
  | cons i rest ih =>
    simp only [list_buckets,
      list_scan_no_match realloc_ok keep b (t.entries i) (h i (List.mem_cons_self _ _))]
    exact ih (fun j hj => h j (List.mem_cons_of_mem _ hj))

/-- When no stored entity passes the filter, a list call returns a NULL array
and `*count = 0`, whatever the allocator does. -/
theorem list_table_no_match {α : Type} (realloc_ok : Nat → Bool) (keep : α → Bool)
    (t : hash_table_t α) (h : (stored t).filter keep = []) :
    list_table realloc_ok keep t = (none, 0) := by
  unfold list_table
  rw [list_buckets_no_match realloc_ok keep t ⟨none, 0, 0⟩ (List.range HASH_SIZE)]
  intro i hi
  unfold stored at h
  rw [List.filter_flatMap] at h
  exact List.flatMap_eq_nil_iff.1 h i hi

theorem stored_zeroed_table (α : Type) : stored (zeroed_table α) = [] := by
  unfold stored
  exact flatMap_eq_nil_of_forall _ _ (fun _ _ => rfl)

/-! ## Lemmas on the router -/

theorem take_networks_url (rest : c_string) :
    (ascii "/api/v1/networks/" ++ rest).take 15 = (ascii "/api/v1/networks").take 15 := by
  rw [List.take_append_of_le_length (by decide)]
  decide

theorem drop_networks_url (rest : c_string) :
    (ascii "/api/v1/networks/" ++ rest).drop 16 = 47 :: rest := by
  rw [List.drop_append_of_le_length (by decide)]
  have h : (ascii "/api/v1/networks/").drop 16 = [47] := by decide
  rw [h]
  rfl

theorem length_networks_url (rest : c_string) :
    (ascii "/api/v1/networks/" ++ rest).length > 16 := by
  rw [List.length_append]
  have h : (ascii "/api/v1/networks/").length = 17 := by decide
  omega

theorem create_network_none_of_vni (env : create_env) (tenant_id name description : Option c_string)
    (vni : Nat) (h : vni = 0 ∨ vni > MAX_VNI) :
    vxlan_create_network env tenant_id name vni description = none := by
  cases hc : vxlan_create_network env tenant_id name vni description with
  | none => rfl
  | some net =>
    obtain ⟨_, _, _, _, _, _, h1, h2, _⟩ :=
      create_network_some env tenant_id name description vni net hc
    omega

/-- The handler past its two early exits, when the three required keys are
found. -/
theorem handle_create_network_of_keys (s : storage) (env : handler_env) (json : json_body)
    (h1 : json.has_key json_key.tenant_id = true) (h2 : json.has_key json_key.name = true)
    (h3 : json.has_key json_key.vni = true) :
    handle_create_network s env (some json) =
      match vxlan_create_network env.create (json.get_string json_key.tenant_id)
          (json.get_string json_key.name) (to_uint32 (json.get_int json_key.vni))
          (if json.has_key json_key.description then json.get_string json_key.description
            else none) with
      | none =>
        (⟨MHD_HTTP_INTERNAL_SERVER_ERROR, response_body.error error_code.CREATE_FAILED⟩, s)
      | some network =>
        if !(storage_save_network s (some network) env.malloc_ok).1 then
          (⟨MHD_HTTP_INTERNAL_SERVER_ERROR, response_body.error error_code.SAVE_FAILED⟩,
            (storage_save_network s (some network) env.malloc_ok).2)
        else
          (⟨MHD_HTTP_CREATED, response_body.network network⟩,
            (storage_save_network s (some network) env.malloc_ok).2) := by
  simp only [handle_create_network, h1, h2, h3]
  rfl

/-! ## Claims on the list result, the handlers and the router -/

/-- C11 (the code at the failing input): on the empty store with every
allocation succeeding, `storage_list_networks(NULL, &count)` returns a NULL
array with count 0, which is also what it returns on the store holding `net_a1`
when `realloc` fails; `storage_list_endpoints` does the same on a store without
endpoints and on a store holding `ep_e1` when `realloc` fails; and
`handle_list_networks` answers the empty store with status 500, `LIST_FAILED`. -/
theorem list_zero_matches_returns_null :
    storage_list_networks store_0 none (fun _ => true) = (none, 0) ∧
    storage_list_networks store_1 none (fun _ => false) = (none, 0) ∧
    storage_list_endpoints store_1 (some (ascii "a")) 0 (fun _ => true) = (none, 0) ∧
    storage_list_endpoints store_ep1 (some (ascii "a")) 0 (fun _ => false) = (none, 0) ∧
    handle_list_networks store_0 henv_ok =
      ⟨500, response_body.error error_code.LIST_FAILED⟩ := by
  have hn0 : store_0.networks_table = zeroed_table vxlan_network_t := rfl
  have he1 : store_1.endpoints_table = zeroed_table vxlan_endpoint_t := rfl
  have h0 : storage_list_networks store_0 none (fun _ => true) = (none, 0) := by
    unfold storage_list_networks
    apply list_table_no_match
    rw [hn0, stored_zeroed_table, List.filter_nil]
  refine ⟨h0, ?_, ?_, ?_, ?_⟩
  · unfold storage_list_networks
    exact list_table_first_realloc_fails _ rfl _ _
  · simp only [storage_list_endpoints]
    apply list_table_no_match
    rw [he1, stored_zeroed_table, List.filter_nil]
  · simp only [storage_list_endpoints]
    exact list_table_first_realloc_fails _ rfl _ _
  · unfold handle_list_networks
    have hr : henv_ok.realloc_ok = fun _ => true := rfl
    rw [hr, h0]
    rfl

/-- C18, as stated, fails: a create-network request with `tenant_id` `t1`,
`name` `n1` and `vni` 0, and one with `vni` 2^24, are rejected by
`vxlan_create_network` and answered with status 500, `CREATE_FAILED`, not with
a 400-class status. -/
theorem create_network_invalid_vni_is_500 :
    (handle_create_network store_0 henv_ok (some body_vni_zero)).1 =
      ⟨500, response_body.error error_code.CREATE_FAILED⟩ ∧
    (handle_create_network store_0 henv_ok (some body_vni_too_large)).1 =
      ⟨500, response_body.error error_code.CREATE_FAILED⟩ := by
  decide

/-- C18 (amended): whenever a create-network request carries `tenant_id`,
`name` and `vni` but `vxlan_create_network` rejects them, as it does for
`vni = 0` and `vni = 2^24`, `handle_create_network` answers with status 500
(`CREATE_FAILED`) and leaves the store unchanged; it answers with status 400
exactly when the body does not parse or lacks one of the three keys. -/
theorem create_network_rejection_status (s : storage) (env : handler_env) (json : json_body)
    (hkeys : json.has_key json_key.tenant_id = true ∧ json.has_key json_key.name = true ∧
      json.has_key json_key.vni = true) :
    (vxlan_create_network env.create (json.get_string json_key.tenant_id)
        (json.get_string json_key.name) (to_uint32 (json.get_int json_key.vni))
        (if json.has_key json_key.description then json.get_string json_key.description
          else none) = none →
      handle_create_network s env (some json) =
        (⟨500, response_body.error error_code.CREATE_FAILED⟩, s)) ∧
    ((json.get_int json_key.vni = 0 ∨ json.get_int json_key.vni = 2 ^ 24) →
      handle_create_network s env (some json) =
        (⟨500, response_body.error error_code.CREATE_FAILED⟩, s)) ∧
    (∀ upload : Option json_body,
      (handle_create_network s env upload).1.status = 400 ↔
        (upload = none ∨ ∃ body, upload = some body ∧
          (body.has_key json_key.tenant_id = false ∨ body.has_key json_key.name = false ∨
            body.has_key json_key.vni = false))) := by
  obtain ⟨hk1, hk2, hk3⟩ := hkeys
  have hrej : vxlan_create_network env.create (json.get_string json_key.tenant_id)
        (json.get_string json_key.name) (to_uint32 (json.get_int json_key.vni))
        (if json.has_key json_key.description then json.get_string json_key.description
          else none) = none →
      handle_create_network s env (some json) =
        (⟨500, response_body.error error_code.CREATE_FAILED⟩, s) := by
    intro h
    simp only [handle_create_network, hk1, hk2, hk3, h]
    rfl
  refine ⟨hrej, ?_, ?_⟩
  · intro hv
    apply hrej
    apply create_network_none_of_vni
    rcases hv with hv | hv
    · left; rw [hv]; decide
    · right; rw [hv]; decide
  · intro upload
    cases upload with
    | none => simp [handle_create_network, MHD_HTTP_BAD_REQUEST]
    | some body =>
      by_cases hmiss : body.has_key json_key.tenant_id = false ∨
          body.has_key json_key.name = false ∨ body.has_key json_key.vni = false
      · have hcond : (!body.has_key json_key.tenant_id || !body.has_key json_key.name ||
            !body.has_key json_key.vni) = true := by
          rcases hmiss with h | h | h <;> simp [h]
        constructor
        · intro _
          exact Or.inr ⟨body, rfl, hmiss⟩
        · intro _
          simp only [handle_create_network, hcond, if_true]
          rfl
      · have h1 : body.has_key json_key.tenant_id = true := by
          cases h : body.has_key json_key.tenant_id
          · exact absurd (Or.inl h) hmiss
          · rfl
        have h2 : body.has_key json_key.name = true := by
          cases h : body.has_key json_key.name
          · exact absurd (Or.inr (Or.inl h)) hmiss
          · rfl
        have h3 : body.has_key json_key.vni = true := by
          cases h : body.has_key json_key.vni
          · exact absurd (Or.inr (Or.inr h)) hmiss
          · rfl
        constructor
        · intro h400
          exfalso
          rw [handle_create_network_of_keys s env body h1 h2 h3] at h400
          cases hc : vxlan_create_network env.create (body.get_string json_key.tenant_id)
              (body.get_string json_key.name) (to_uint32 (body.get_int json_key.vni))
              (if body.has_key json_key.description then body.get_string json_key.description
                else none) with
          | none =>
            rw [hc] at h400
            have hst : (500 : Nat) = 400 := h400
            exact absurd hst (by decide)
          | some network =>
            rw [hc] at h400
            cases hs : (storage_save_network s (some network) env.malloc_ok).1 with
            | false =>
              simp only [hs] at h400
              have hst : (500 : Nat) = 400 := h400
              exact absurd hst (by decide)
            | true =>
              simp only [hs] at h400
              have hst : (201 : Nat) = 400 := h400
              exact absurd hst (by decide)
        · rintro (h | ⟨b, hb, hm⟩)
          · cases h
          · injection hb with hb
            subst hb
            exact absurd hm hmiss

/-- Witness of C18 (amended): the body with `tenant_id` `t1`, `name` `n1` and
`vni` 0 on the empty store. -/
theorem create_network_rejection_status_witness :
    handle_create_network store_0 henv_ok (some body_vni_zero) =
      (⟨500, response_body.error error_code.CREATE_FAILED⟩, store_0) :=
  (create_network_rejection_status store_0 henv_ok body_vni_zero (by decide)).1 (by decide)

/-- C19 (the code at the failing input): for every network id `X`, every store
and every body, a POST to `/api/v1/networks/X/endpoints` is handled by
`handle_create_network`, because the first 15 characters of the URL are those
of `/api/v1/networks`; with the body that `test_create_endpoint` posts the
answer is status 400, `INVALID_PARAMS`, and the store is unchanged. -/
theorem post_endpoint_route_reaches_create_network (s : storage) (env : handler_env)
    (X : c_string) (upload : Option json_body) :
    request_handler s env (ascii "POST") (ascii "/api/v1/networks/" ++ (X ++ ascii "/endpoints"))
        upload = handle_create_network s env upload ∧
    request_handler s env (ascii "POST") (ascii "/api/v1/networks/" ++ (X ++ ascii "/endpoints"))
        (some body_test_endpoint) =
      (⟨400, response_body.error error_code.INVALID_PARAMS⟩, s) := by
  have hroute : ∀ up, request_handler s env (ascii "POST")
      (ascii "/api/v1/networks/" ++ (X ++ ascii "/endpoints")) up =
        handle_create_network s env up := by
    intro up
    simp only [request_handler, strncmp_eq, take_networks_url]
    simp
  refine ⟨hroute upload, ?_⟩
  rw [hroute]
  rfl

/-- C20 (the code at the failing input): for every id `X` and every store, a
GET of `/api/v1/networks/X` is answered by `handle_get_network` called with
`/X`, the id with the slash in front, because the router passes `url + 16`; so
with `net_a1` stored under id `a`, a GET of `/api/v1/networks/a` is answered
with status 404 although `storage_get_network` finds `net_a1` under `a`. -/
theorem get_network_route_keeps_slash (s : storage) (env : handler_env) (X : c_string)
    (upload : Option json_body) :
    request_handler s env (ascii "GET") (ascii "/api/v1/networks/" ++ X) upload =
      (handle_get_network s (47 :: X), s) ∧
    storage_get_network store_1 (some (ascii "a")) = some net_a1 ∧
    request_handler store_1 henv_ok (ascii "GET") (ascii "/api/v1/networks/a") none =
      (⟨404, response_body.error error_code.NOT_FOUND⟩, store_1) := by
  have hroute : ∀ (st : storage) (e : handler_env) (Y : c_string),
      request_handler st e (ascii "GET") (ascii "/api/v1/networks/" ++ Y) upload =
        (handle_get_network st (47 :: Y), st) := by
    intro st e Y
    have hm : ¬ (ascii "GET" = ascii "POST") := by decide
    simp only [request_handler, strncmp_eq, take_networks_url, if_neg hm, drop_networks_url,
      length_networks_url]
    simp
  refine ⟨hroute s env X, by decide, ?_⟩
  have hurl : ascii "/api/v1/networks/a" = ascii "/api/v1/networks/" ++ ascii "a" := by decide
  rw [hurl]
  have h := hroute store_1 henv_ok (ascii "a")
  have hg : handle_get_network store_1 (47 :: ascii "a") =
      ⟨404, response_body.error error_code.NOT_FOUND⟩ := by decide
  rw [hg] at h
  cases upload with
  | none => exact h
  | some body =>
    have hm : ¬ (ascii "GET" = ascii "POST") := by decide
    simp only [request_handler, strncmp_eq, take_networks_url, if_neg hm, drop_networks_url,
      length_networks_url]
    simp [hg]

/-! ## Lemmas for the third group -/

/-- The delete loop reports whether some node has the key and unlinks the
first such node. -/
theorem delete_network_loop_eq (k : c_string) (chain : List (hash_entry_t vxlan_network_t)) :
    delete_network_loop k chain =
      (chain.any (fun entry => decide (entry.key = k)),
        chain.eraseP (fun entry => decide (entry.key = k))) := by
  induction chain with
  | nil => rfl
  | cons entry next ih =>
    by_cases hk : entry.key = k
    · have hb : decide (entry.key = k) = true := by simp [hk]
      rw [delete_network_loop, if_pos hk, List.any_cons, hb, Bool.true_or]
      rw [List.eraseP_cons_of_pos (p := fun e : hash_entry_t vxlan_network_t => decide (e.key = k)) hb]
    · have hb : ¬ (decide (entry.key = k) = true) := by simp [hk]
      have hb2 : decide (entry.key = k) = false := by simp [hk]
      rw [delete_network_loop, if_neg hk, ih, List.any_cons, hb2, Bool.false_or]
      rw [List.eraseP_cons_of_neg (p := fun e : hash_entry_t vxlan_network_t => decide (e.key = k)) hb]

theorem keys_are_ids_apply_op (s : storage) (op : storage_op) (hs : keys_are_ids s) :
    keys_are_ids (apply_op s op) := by
  obtain ⟨hn, he⟩ := hs
  cases op with
  | save_network network malloc_ok =>
    refine ⟨?_, ?_⟩
    · cases network with
      | none => exact hn
      | some net =>
        cases hid : net.id with
        | none => simpa [apply_op, storage_save_network, hid] using hn
        | some id =>
          cases malloc_ok with
          | false => simpa [apply_op, storage_save_network, hid] using hn
          | true =>
            intro i entry hmem
            simp only [apply_op, save_network_state s net id hid] at hmem
            by_cases hi : i = hash id
            · subst hi
              rw [set_bucket_entries_same] at hmem
              rcases List.mem_cons.1 hmem with h1 | h1
              · rw [h1]; exact hid
              · exact hn _ entry h1
            · rw [set_bucket_entries_other _ _ _ _ hi] at hmem
              exact hn i entry hmem
    · intro i entry hmem
      simp only [apply_op, save_network_endpoints_table] at hmem
      exact he i entry hmem
  | delete_network network_id =>
    refine ⟨?_, ?_⟩
    · cases network_id with
      | none => exact hn
      | some id =>
        intro i entry hmem
        simp only [apply_op, storage_delete_network] at hmem
        by_cases hi : i = hash id
        · subst hi
          rw [set_bucket_entries_same] at hmem
          exact hn _ entry (delete_network_loop_subset id _ entry hmem)
        · rw [set_bucket_entries_other _ _ _ _ hi] at hmem
          exact hn i entry hmem
    · intro i entry hmem
      simp only [apply_op, delete_network_endpoints_table] at hmem
      exact he i entry hmem
  | save_endpoint endpoint malloc_ok =>
    refine ⟨?_, ?_⟩
    · intro i entry hmem
      simp only [apply_op, save_endpoint_networks_table] at hmem
      exact hn i entry hmem
    · cases endpoint with
      | none => exact he
      | some ep =>
        cases hid : ep.id with
        | none => simpa [apply_op, storage_save_endpoint, hid] using he
        | some id =>
          cases malloc_ok with
          | false => simpa [apply_op, storage_save_endpoint, hid] using he
          | true =>
            intro i entry hmem
            simp only [apply_op, save_endpoint_state s ep id hid] at hmem
            by_cases hi : i = hash id
            · subst hi
              rw [set_bucket_entries_same] at hmem
              rcases List.mem_cons.1 hmem with h1 | h1
              · rw [h1]; exact hid
              · exact he _ entry h1
            · rw [set_bucket_entries_other _ _ _ _ hi] at hmem
              exact he i entry hmem
  | delete_endpoint n endpoint_id =>
    refine ⟨?_, ?_⟩
    · intro i entry hmem
      simp only [apply_op, delete_endpoint_networks_table] at hmem
      exact hn i entry hmem
    · cases endpoint_id with
      | none => exact he
      | some id =>
        intro i entry hmem
        simp only [apply_op, storage_delete_endpoint, delete_endpoint_loop_eq] at hmem
        by_cases hi : i = hash id
        · subst hi
          rw [set_bucket_entries_same] at hmem
          exact he _ entry (List.mem_of_mem_eraseP hmem)
        · rw [set_bucket_entries_other _ _ _ _ hi] at hmem
          exact he i entry hmem

theorem keys_are_ids_run_ops (ops : List storage_op) :
    ∀ s : storage, keys_are_ids s → keys_are_ids (run_ops s ops) := by
  induction ops with
  | nil => intro s hs; exact hs
  | cons op rest ih =>
    intro s hs
    exact ih (apply_op s op) (keys_are_ids_apply_op s op hs)

theorem reachable_keys_are_ids (s : storage) (hs : reachable s) : keys_are_ids s := by
  obtain ⟨ops, rfl⟩ := hs
  apply keys_are_ids_run_ops
  constructor <;> intro i entry hmem <;> cases hmem

/-- A chain that holds a node with key `k` and only nodes whose key is their
entity id yields, on lookup of `k`, an entity with id `k`. -/
theorem get_network_loop_finds (k : c_string) (chain : List (hash_entry_t vxlan_network_t))
    (hids : ∀ entry ∈ chain, entry.value.id = some entry.key)
    (hk : ∃ entry ∈ chain, entry.key = k) :
    ∃ net, get_network_loop k chain = some net ∧ net.id = some k := by
  induction chain with
  | nil =>
    obtain ⟨entry, hmem, _⟩ := hk
    cases hmem
  | cons e next ih =>
    by_cases he : e.key = k
    · refine ⟨e.value, ?_, ?_⟩
      · simp only [get_network_loop, if_pos he]
      · rw [hids e (List.mem_cons_self _ _), he]
    · simp only [get_network_loop, if_neg he]
      apply ih (fun entry hmem => hids entry (List.mem_cons_of_mem _ hmem))
      obtain ⟨entry, hmem, hkey⟩ := hk
      rcases List.mem_cons.1 hmem with h1 | h1
      · rw [h1] at hkey
        exact absurd hkey he
      · exact ⟨entry, h1, hkey⟩

theorem get_endpoint_loop_finds (k : c_string) (chain : List (hash_entry_t vxlan_endpoint_t))
    (hids : ∀ entry ∈ chain, entry.value.id = some entry.key)
    (hk : ∃ entry ∈ chain, entry.key = k) :
    ∃ ep, get_endpoint_loop none k chain = some ep ∧ ep.id = some k := by
  induction chain with
  | nil =>
    obtain ⟨entry, hmem, _⟩ := hk
    cases hmem
  | cons e next ih =>
    by_cases he : e.key = k
    · refine ⟨e.value, ?_, ?_⟩
      · have hm : e.key = k ∧ network_id_matches none e.value = true := ⟨he, rfl⟩
        simp only [get_endpoint_loop, if_pos hm]
      · rw [hids e (List.mem_cons_self _ _), he]
    · have hm : ¬ (e.key = k ∧ network_id_matches none e.value = true) := fun h => he h.1
      simp only [get_endpoint_loop, if_neg hm]
      apply ih (fun entry hmem => hids entry (List.mem_cons_of_mem _ hmem))
      obtain ⟨entry, hmem, hkey⟩ := hk
      rcases List.mem_cons.1 hmem with h1 | h1
      · rw [h1] at hkey
        exact absurd hkey he
      · exact ⟨entry, h1, hkey⟩

/-! ## Claims on the store, third group -/

/-- C23: in every reachable store state in which the key `k` occurs,
`storage_delete_network(k)` returns true and the bucket chain of `k` afterwards
is the old chain without the first node whose key is `k`: the nodes before it
(none of them with key `k`) and the nodes after it are kept in their order;
every other bucket and the endpoint table are unchanged. -/
theorem delete_network_removes_first (s : storage) (hs : reachable s) (k : c_string)
    (hk : ∃ i, i < HASH_SIZE ∧ ∃ entry ∈ s.networks_table.entries i, entry.key = k) :
    (storage_delete_network s (some k)).1 = true ∧
    (∃ before entry after,
      s.networks_table.entries (hash k) = before ++ entry :: after ∧
      (∀ e ∈ before, e.key ≠ k) ∧ entry.key = k ∧
      (storage_delete_network s (some k)).2.networks_table.entries (hash k)
        = before ++ after) ∧
    (∀ i, i ≠ hash k →
      (storage_delete_network s (some k)).2.networks_table.entries i
        = s.networks_table.entries i) ∧
    (storage_delete_network s (some k)).2.endpoints_table = s.endpoints_table := by
  have hwb := (reachable_well_bucketed s hs).1
  obtain ⟨i, _, entry, hmem, hkey⟩ := hk
  have hi : hash entry.key = i := hwb i entry hmem
  rw [hkey] at hi
  subst hi
  have hp : (fun e : hash_entry_t vxlan_network_t => decide (e.key = k)) entry = true := by
    simp [hkey]
  obtain ⟨a, l1, l2, hl1, ha, hsplit, herase⟩ :=
    List.exists_of_eraseP (p := fun e : hash_entry_t vxlan_network_t => decide (e.key = k))
      hmem hp
  simp only [storage_delete_network, delete_network_loop_eq, set_bucket_entries_same]
  refine ⟨List.any_eq_true.2 ⟨entry, hmem, hp⟩, ⟨l1, a, l2, hsplit, ?_, ?_, herase⟩, ?_, trivial⟩
  · intro e he hek
    exact hl1 e he (by simp [hek])
  · simpa using ha
  · intro j hj
    exact set_bucket_entries_other _ _ _ _ hj

/-- Witness of C23: the store reached by saving `net_a1` and `net_a2` under
the id `a`, and the key `a`. -/
theorem delete_network_removes_first_witness :
    reachable store_2 ∧
    (storage_delete_network store_2 (some (ascii "a"))).1 = true ∧
    (∀ i, i ≠ hash (ascii "a") →
      (storage_delete_network store_2 (some (ascii "a"))).2.networks_table.entries i
        = store_2.networks_table.entries i) :=
  ⟨⟨[storage_op.save_network (some net_a1) true, storage_op.save_network (some net_a2) true],
      rfl⟩,
    (delete_network_removes_first store_2
      ⟨[storage_op.save_network (some net_a1) true,
        storage_op.save_network (some net_a2) true], rfl⟩
      (ascii "a")
      ⟨hash (ascii "a"), by decide, ⟨ascii "a", net_a2⟩, by decide, rfl⟩).1,
    (delete_network_removes_first store_2
      ⟨[storage_op.save_network (some net_a1) true,
        storage_op.save_network (some net_a2) true], rfl⟩
      (ascii "a")
      ⟨hash (ascii "a"), by decide, ⟨ascii "a", net_a2⟩, by decide, rfl⟩).2.2.1⟩

/-- C24: for every store state and every network with an id,
`storage_save_network` returns true when the allocation succeeds and then the
bucket `hash(id)` is the old chain with one node in front, whose key is the id
and whose value is the entity, every other bucket and the endpoint table being
unchanged; it returns false exactly when the entity is absent, its id is
absent or the allocation fails, and then the store is unchanged. The same
holds for `storage_save_endpoint` on the endpoint table. -/
theorem save_succeeds_unless_allocation_fails (s : storage) (network : Option vxlan_network_t)
    (endpoint : Option vxlan_endpoint_t) (malloc_ok : Bool) :
    (∀ e id, network = some e → e.id = some id → malloc_ok = true →
      (storage_save_network s network malloc_ok).1 = true ∧
      (storage_save_network s network malloc_ok).2.networks_table.entries (hash id)
        = ⟨id, e⟩ :: s.networks_table.entries (hash id) ∧
      (∀ i, i ≠ hash id →
        (storage_save_network s network malloc_ok).2.networks_table.entries i
          = s.networks_table.entries i) ∧
      (storage_save_network s network malloc_ok).2.endpoints_table = s.endpoints_table) ∧
    ((storage_save_network s network malloc_ok).1 = false ↔
      (network = none ∨ network.bind (fun e => e.id) = none ∨ malloc_ok = false)) ∧
    ((storage_save_network s network malloc_ok).1 = false →
      (storage_save_network s network malloc_ok).2 = s) ∧
    (∀ e id, endpoint = some e → e.id = some id → malloc_ok = true →
      (storage_save_endpoint s endpoint malloc_ok).1 = true ∧
      (storage_save_endpoint s endpoint malloc_ok).2.endpoints_table.entries (hash id)
        = ⟨id, e⟩ :: s.endpoints_table.entries (hash id) ∧
      (∀ i, i ≠ hash id →
        (storage_save_endpoint s endpoint malloc_ok).2.endpoints_table.entries i
          = s.endpoints_table.entries i) ∧
      (storage_save_endpoint s endpoint malloc_ok).2.networks_table = s.networks_table) ∧
    ((storage_save_endpoint s endpoint malloc_ok).1 = false ↔
      (endpoint = none ∨ endpoint.bind (fun e => e.id) = none ∨ malloc_ok = false)) ∧
    ((storage_save_endpoint s endpoint malloc_ok).1 = false →
      (storage_save_endpoint s endpoint malloc_ok).2 = s) := by
  refine ⟨?_, ?_, ?_, ?_, ?_, ?_⟩
  · intro e id hn hid hm
    subst hn
    subst hm
    refine ⟨(save_network_succeeds_iff s e true).2 ⟨⟨id, hid⟩, rfl⟩, ?_, ?_, ?_⟩
    · rw [save_network_state s e id hid]
      exact set_bucket_entries_same _ _ _
    · intro i hi
      rw [save_network_state s e id hid]
      exact set_bucket_entries_other _ _ _ _ hi
    · exact save_network_endpoints_table s (some e) true
  · cases network with
    | none => simp [storage_save_network]
    | some e => cases hid : e.id <;> cases malloc_ok <;> simp [storage_save_network, hid]
  · cases network with
    | none => intro _; rfl
    | some e =>
      cases hid : e.id <;> cases malloc_ok <;> simp [storage_save_network, hid]
  · intro e id hn hid hm
    subst hn
    subst hm
    refine ⟨(save_endpoint_succeeds_iff s e true).2 ⟨⟨id, hid⟩, rfl⟩, ?_, ?_, ?_⟩
    · rw [save_endpoint_state s e id hid]
      exact set_bucket_entries_same _ _ _
    · intro i hi
      rw [save_endpoint_state s e id hid]
      exact set_bucket_entries_other _ _ _ _ hi
    · exact save_endpoint_networks_table s (some e) true
  · cases endpoint with
    | none => simp [storage_save_endpoint]
    | some e => cases hid : e.id <;> cases malloc_ok <;> simp [storage_save_endpoint, hid]
  · cases endpoint with
    | none => intro _; rfl
    | some e =>
      cases hid : e.id <;> cases malloc_ok <;> simp [storage_save_endpoint, hid]

/-- Witness of C24: `net_a1` saved into the empty store with the allocation
succeeding. -/
theorem save_succeeds_unless_allocation_fails_witness :
    (storage_save_network store_0 (some net_a1) true).1 = true ∧
    (storage_save_network store_0 (some net_a1) true).2.networks_table.entries
        (hash (ascii "a"))
      = ⟨ascii "a", net_a1⟩ :: store_0.networks_table.entries (hash (ascii "a")) ∧
    (∀ i, i ≠ hash (ascii "a") →
      (storage_save_network store_0 (some net_a1) true).2.networks_table.entries i
        = store_0.networks_table.entries i) ∧
    (storage_save_network store_0 (some net_a1) true).2.endpoints_table
      = store_0.endpoints_table :=
  (save_succeeds_unless_allocation_fails store_0 (some net_a1) none true).1 net_a1 (ascii "a")
    rfl rfl rfl

/-- C26: in every state reachable from `storage_init` by save and delete calls
on either table, each node stored in bucket `i` has `hash(key) = i` and a key
equal to the id of the entity it holds (the id it had when it was saved);
so whenever some bucket holds a node with key `k`, the lookup, which scans
only bucket `hash(k)`, returns an entity with id `k`. -/
theorem bucket_invariant (s : storage) (hs : reachable s) :
    (∀ i, ∀ entry ∈ s.networks_table.entries i,
      hash entry.key = i ∧ entry.value.id = some entry.key) ∧
    (∀ i, ∀ entry ∈ s.endpoints_table.entries i,
      hash entry.key = i ∧ entry.value.id = some entry.key) ∧
    (∀ k, (∃ i, ∃ entry ∈ s.networks_table.entries i, entry.key = k) →
      ∃ net, storage_get_network s (some k) = some net ∧ net.id = some k) ∧
    (∀ k, (∃ i, ∃ entry ∈ s.endpoints_table.entries i, entry.key = k) →
      ∃ ep, storage_get_endpoint s none (some k) = some ep ∧ ep.id = some k) := by
  have hwb := reachable_well_bucketed s hs
  have hid := reachable_keys_are_ids s hs
  refine ⟨fun i entry h => ⟨hwb.1 i entry h, hid.1 i entry h⟩,
    fun i entry h => ⟨hwb.2 i entry h, hid.2 i entry h⟩, ?_, ?_⟩
  · rintro k ⟨i, entry, hmem, hkey⟩
    have hi : hash entry.key = i := hwb.1 i entry hmem
    rw [hkey] at hi
    subst hi
    exact get_network_loop_finds k _ (hid.1 (hash k)) ⟨entry, hmem, hkey⟩
  · rintro k ⟨i, entry, hmem, hkey⟩
    have hi : hash entry.key = i := hwb.2 i entry hmem
    rw [hkey] at hi
    subst hi
    exact get_endpoint_loop_finds k _ (hid.2 (hash k)) ⟨entry, hmem, hkey⟩

/-- Witness of C26: the store reached by saving `net_a1` and `net_a2`; a node
with key `a` is stored, and the lookup of `a` returns a network with id `a`. -/
theorem bucket_invariant_witness :
    reachable store_2 ∧
    ∃ net, storage_get_network store_2 (some (ascii "a")) = some net ∧
      net.id = some (ascii "a") :=
  ⟨⟨[storage_op.save_network (some net_a1) true, storage_op.save_network (some net_a2) true],
      rfl⟩,
    (bucket_invariant store_2
      ⟨[storage_op.save_network (some net_a1) true,
        storage_op.save_network (some net_a2) true], rfl⟩).2.2.1 (ascii "a")
      ⟨hash (ascii "a"), ⟨ascii "a", net_a1⟩, by decide, rfl⟩⟩

/-- C27: for every store state, every network `e` with an id and every key `k`
different from that id, `storage_get_network(k)` returns the same result
before and after `storage_save_network(e)`, whatever buckets the two keys
fall into and whether or not the save succeeds. -/
theorem save_leaves_other_keys (s : storage) (e : vxlan_network_t) (id k : c_string)
    (malloc_ok : Bool) (hid : e.id = some id) (hne : k ≠ id) :
    storage_get_network (storage_save_network s (some e) malloc_ok).2 (some k)
      = storage_get_network s (some k) := by
  have hop : leaves_network_key k (storage_op.save_network (some e) malloc_ok) := by
    right
    simp only [Option.bind, hid]
    intro h
    injection h with h
    exact hne h.symm
  exact get_network_apply_op s k (storage_op.save_network (some e) malloc_ok) hop

/-- Witness of C27: the keys `gnf` and `a` fall into the same bucket, and
saving `net_gnf` into the store holding `net_a1` leaves the lookup of `a` as it
was. -/
theorem save_leaves_other_keys_witness :
    hash (ascii "gnf") = hash (ascii "a") ∧
    storage_get_network (storage_save_network store_1 (some net_gnf) true).2
        (some (ascii "a"))
      = storage_get_network store_1 (some (ascii "a")) :=
  ⟨by decide,
    save_leaves_other_keys store_1 net_gnf (ascii "gnf") (ascii "a") true rfl (by decide)⟩

/-! ## Lemmas on the URL handling of the endpoint handlers -/

theorem strrchr_append_of_some (a b found : c_string) (c : Int)
    (h : strrchr b c = some found) : strrchr (a ++ b) c = some found := by
  induction a with
  | nil => exact h
  | cons x rest ih =>
    show (match strrchr (rest ++ b) c with
      | some found => some found
      | none => if x = c then some (x :: (rest ++ b)) else none) = some found
    rw [ih]

/-- The last `/` of a URL that ends in `/endpoints` is the one in front of
`endpoints`, whatever precedes it. -/
theorem strrchr_endpoints_url (X : c_string) :
    strrchr (ascii "/api/v1/networks/" ++ (X ++ ascii "/endpoints")) 47
      = some (ascii "/endpoints") := by
  apply strrchr_append_of_some
  apply strrchr_append_of_some
  decide

theorem drop_one_endpoints : (ascii "/endpoints").drop 1 = ascii "endpoints" := by
  decide

/-! ## Claims on the router and the endpoint handlers -/

/-- C21 (the code at the failing input): for every network id `X` and every
store, a GET of `/api/v1/networks/X/endpoints` is answered by
`handle_get_network` called with `/X/endpoints`, because the router tests the
first 15 characters of the URL against `/api/v1/networks` before it looks for
`/endpoints`; so with `net_a1` stored under `a` and its endpoint `ep_e1`
stored, the GET of `/api/v1/networks/a/endpoints` is answered with status 404,
`NOT_FOUND`. -/
theorem get_endpoints_route_reaches_get_network (s : storage) (env : handler_env)
    (X : c_string) (upload : Option json_body) :
    request_handler s env (ascii "GET") (ascii "/api/v1/networks/" ++ (X ++ ascii "/endpoints"))
        upload = (handle_get_network s (47 :: (X ++ ascii "/endpoints")), s) ∧
    storage_get_endpoint store_net_ep (some (ascii "a")) (some (ascii "e")) = some ep_e1 ∧
    (request_handler store_net_ep henv_ok (ascii "GET") (ascii "/api/v1/networks/a/endpoints")
        none).1 = ⟨404, response_body.error error_code.NOT_FOUND⟩ := by
  refine ⟨?_, by decide, by decide⟩
  have hm : ¬ (ascii "GET" = ascii "POST") := by decide
  simp only [request_handler, strncmp_eq, take_networks_url, if_neg hm, drop_networks_url,
    length_networks_url]
  simp

/-- C25 (the code at the failing input): for every id `X`, with the URL
`/api/v1/networks/X/endpoints` both handlers take what follows the last `/`,
which is `endpoints`: `handle_list_endpoints` lists the endpoints whose
`network_id` is `endpoints`, and every endpoint that `handle_create_endpoint`
creates has `network_id` `endpoints`; with `X = a` and the body of
`test_create_endpoint` the endpoint created is `ep_created_by_handler`. -/
theorem endpoint_handlers_take_last_segment (s : storage) (env : handler_env) (X : c_string)
    (upload : Option json_body) :
    strrchr (ascii "/api/v1/networks/" ++ (X ++ ascii "/endpoints")) 47
      = some (ascii "/endpoints") ∧
    handle_list_endpoints s env (ascii "/api/v1/networks/" ++ (X ++ ascii "/endpoints")) =
      (match storage_list_endpoints s (some (ascii "endpoints")) 0 env.realloc_ok with
        | (none, _) =>
          ⟨MHD_HTTP_INTERNAL_SERVER_ERROR, response_body.error error_code.LIST_FAILED⟩
        | (some endpoints, count) =>
          ⟨MHD_HTTP_OK, response_body.endpoint_array (endpoints.take count)⟩) ∧
    (∀ ep, (handle_create_endpoint s env
          (ascii "/api/v1/networks/" ++ (X ++ ascii "/endpoints")) upload).1
        = ⟨MHD_HTTP_CREATED, response_body.endpoint ep⟩ →
      ep.network_id = some (ascii "endpoints")) ∧
    (handle_create_endpoint store_0 henv_ok (ascii "/api/v1/networks/a/endpoints")
        (some body_test_endpoint)).1
      = ⟨201, response_body.endpoint ep_created_by_handler⟩ ∧
    ep_created_by_handler.network_id ≠ some (ascii "a") := by
  refine ⟨strrchr_endpoints_url X, ?_, ?_, by decide, by decide⟩
  · simp only [handle_list_endpoints, strrchr_endpoints_url, drop_one_endpoints]
  · intro ep h
    simp only [handle_create_endpoint, strrchr_endpoints_url, drop_one_endpoints] at h
    cases upload with
    | none =>
      simp only [] at h
      have hst : (400 : Nat) = 201 := congrArg http_response.status h
      exact absurd hst (by decide)
    | some json =>
      simp only [] at h
      split at h
      · have hst : (400 : Nat) = 201 := congrArg http_response.status h
        exact absurd hst (by decide)
      · split at h
        · have hst : (500 : Nat) = 201 := congrArg http_response.status h
          exact absurd hst (by decide)
        · rename_i endpoint hc
          split at h
          · have hst : (500 : Nat) = 201 := congrArg http_response.status h
            exact absurd hst (by decide)
          · have hb := congrArg http_response.body h
            simp only [response_body.endpoint.injEq] at hb
            subst hb
            obtain ⟨nid, mac, ip, host, vtep, id, ts, hn, -, -, -, -, -, -, rfl⟩ :=
              create_endpoint_some _ _ _ _ _ _ _ hc
            injection hn with hn
            rw [hn]

/-- Witness of C25: the endpoint created for `X = a` has `network_id`
`endpoints`. -/
theorem endpoint_handlers_take_last_segment_witness :
    (handle_create_endpoint store_0 henv_ok
        (ascii "/api/v1/networks/" ++ (ascii "a" ++ ascii "/endpoints"))
        (some body_test_endpoint)).1
      = ⟨MHD_HTTP_CREATED, response_body.endpoint ep_created_by_handler⟩ ∧
    ep_created_by_handler.network_id = some (ascii "endpoints") :=
  ⟨by decide,
    (endpoint_handlers_take_last_segment store_0 henv_ok (ascii "a")
      (some body_test_endpoint)).2.2.1 ep_created_by_handler (by decide)⟩

/-! ## Counting the stored nodes -/

theorem flatMap_congr_of_not_mem {β : Type} (f g : Nat → List β) (h : Nat) (l : List Nat)
    (hagree : ∀ i, i ≠ h → g i = f i) (hl : h ∉ l) : l.flatMap g = l.flatMap f := by
  induction l with
  | nil => rfl
  | cons a l ih =>
    have ha : a ≠ h := fun hah => hl (hah ▸ List.mem_cons_self _ _)
    rw [List.flatMap_cons, List.flatMap_cons, hagree a ha,
      ih (fun hm => hl (List.mem_cons_of_mem _ hm))]

/-- Replacing the list of one index changes the total length by the difference
of the two lengths. -/
theorem length_flatMap_replace {β : Type} (f g : Nat → List β) (h : Nat) (l : List Nat)
    (hagree : ∀ i, i ≠ h → g i = f i) (hnd : l.Nodup) (hl : h ∈ l) :
    (l.flatMap g).length + (f h).length = (l.flatMap f).length + (g h).length := by
  induction l with
  | nil => cases hl
  | cons a l ih =>
    rw [List.nodup_cons] at hnd
    rw [List.flatMap_cons, List.flatMap_cons, List.length_append, List.length_append]
    by_cases hah : a = h
    · subst hah
      rw [flatMap_congr_of_not_mem f g a l hagree hnd.1]
      omega
    · rw [hagree a hah]
      rcases List.mem_cons.1 hl with h1 | h1
      · exact absurd h1.symm hah
      · have := ih hnd.2 h1
        omega

theorem length_stored_set_bucket {α : Type} (t : hash_table_t α) (h : Nat) (hh : h < HASH_SIZE)
    (chain : List (hash_entry_t α)) :
    (stored (set_bucket t h chain)).length + (t.entries h).length
      = (stored t).length + chain.length := by
  have key := length_flatMap_replace
    (fun i => (t.entries i).map (fun entry => entry.value))
    (fun i => ((set_bucket t h chain).entries i).map (fun entry => entry.value))
    h (List.range HASH_SIZE)
    (fun i hi => by simp only [set_bucket_entries_other t h i chain hi])
    (List.nodup_range _) (List.mem_range.2 hh)
  simp only [set_bucket_entries_same, List.length_map] at key
  exact key

theorem mem_stored {α : Type} (t : hash_table_t α) (i : Nat) (hi : i < HASH_SIZE)
    (entry : hash_entry_t α) (h : entry ∈ t.entries i) : entry.value ∈ stored t := by
  unfold stored
  exact List.mem_flatMap.2 ⟨i, List.mem_range.2 hi, List.mem_map.2 ⟨entry, h, rfl⟩⟩

/-- One call changes the number of stored networks by its contribution to the
two counters. -/
theorem length_stored_apply_op (s : storage) (op : storage_op) :
    (stored (apply_op s op).networks_table).length + count_network_deletes s [op]
      = (stored s.networks_table).length + count_network_saves s [op] := by
  cases op with
  | save_network network malloc_ok =>
    simp only [count_network_deletes, count_network_saves, apply_op]
    cases network with
    | none => simp [storage_save_network]
    | some net =>
      cases hid : net.id with
      | none => simp [storage_save_network, hid]
      | some id =>
        cases malloc_ok with
        | false => simp [storage_save_network, hid]
        | true =>
          have h1 : (storage_save_network s (some net) true).1 = true :=
            (save_network_succeeds_iff s net true).2 ⟨⟨id, hid⟩, rfl⟩
          have h2 := length_stored_set_bucket s.networks_table (hash id) (hash_lt id)
            (⟨id, net⟩ :: s.networks_table.entries (hash id))
          rw [save_network_state s net id hid, h1]
          simp only [List.length_cons] at h2
          simp only [if_true]
          omega
  | delete_network network_id =>
    simp only [count_network_deletes, count_network_saves, apply_op]
    cases network_id with
    | none => simp [storage_delete_network]
    | some id =>
      simp only [storage_delete_network, delete_network_loop_eq]
      have h2 := length_stored_set_bucket s.networks_table (hash id) (hash_lt id)
        ((s.networks_table.entries (hash id)).eraseP (fun entry => decide (entry.key = id)))
      cases hany : (s.networks_table.entries (hash id)).any
          (fun entry => decide (entry.key = id)) with
      | false =>
        have hc : ∀ entry ∈ s.networks_table.entries (hash id),
            ¬ (fun entry : hash_entry_t vxlan_network_t => decide (entry.key = id)) entry
              = true := List.any_eq_false.1 hany
        rw [List.eraseP_of_forall_not hc] at h2 ⊢
        simp only [set_bucket_self]
        simp
      | true =>
        obtain ⟨entry, hmem, hp⟩ := List.any_eq_true.1 hany
        rw [List.length_eraseP_of_mem hmem hp] at h2
        have hpos : 0 < (s.networks_table.entries (hash id)).length :=
          List.length_pos_of_mem hmem
        simp only [if_true]
        omega
  | save_endpoint endpoint malloc_ok =>
    simp only [count_network_deletes, count_network_saves, apply_op,
      save_endpoint_networks_table]
  | delete_endpoint n endpoint_id =>
    simp only [count_network_deletes, count_network_saves, apply_op,
      delete_endpoint_networks_table]

theorem count_network_saves_cons (s : storage) (op : storage_op) (rest : List storage_op) :
    count_network_saves s (op :: rest)
      = count_network_saves s [op] + count_network_saves (apply_op s op) rest := by
  simp only [count_network_saves, Nat.add_zero]

theorem count_network_deletes_cons (s : storage) (op : storage_op) (rest : List storage_op) :
    count_network_deletes s (op :: rest)
      = count_network_deletes s [op] + count_network_deletes (apply_op s op) rest := by
  simp only [count_network_deletes, Nat.add_zero]

/-- The number of stored networks after a sequence of calls. -/
theorem length_stored_run_ops (ops : List storage_op) :
    ∀ s : storage,
      (stored (run_ops s ops).networks_table).length + count_network_deletes s ops
        = (stored s.networks_table).length + count_network_saves s ops := by
  induction ops with
  | nil => intro s; rfl
  | cons op rest ih =>
    intro s
    have h1 := length_stored_apply_op s op
    have h2 := ih (apply_op s op)
    rw [count_network_saves_cons, count_network_deletes_cons]
    show (stored (run_ops (apply_op s op) rest).networks_table).length + _ = _
    omega

theorem filter_tenant_none (l : List vxlan_network_t) :
    l.filter (tenant_id_matches none) = l :=
  List.filter_eq_self.2 (fun _ _ => rfl)

/-! ## Claim on the listing count -/

/-- C28: in the state reached from `storage_init` by any sequence of save and
delete calls, the number of stored networks is the number of successful
`storage_save_network` calls minus the number of successful
`storage_delete_network` calls, and this is the count that
`storage_list_networks(NULL, &count)` returns whenever no `realloc` fails or
the array returned is not NULL; and after two successful saves of `e1` and
`e2` under one id, `e1` is still stored, and listed when no `realloc` fails,
although `storage_get_network` returns `e2`. -/
theorem list_count_is_saves_minus_deletes (ops : List storage_op) (realloc_ok : Nat → Bool) :
    (stored (run_ops (storage_init true).2 ops).networks_table).length
      = count_network_saves (storage_init true).2 ops
        - count_network_deletes (storage_init true).2 ops ∧
    (((∀ c, realloc_ok c = true) ∨
        (storage_list_networks (run_ops (storage_init true).2 ops) none realloc_ok).1 ≠ none) →
      (storage_list_networks (run_ops (storage_init true).2 ops) none realloc_ok).2
        = count_network_saves (storage_init true).2 ops
          - count_network_deletes (storage_init true).2 ops) ∧
    (∀ (s : storage) (e1 e2 : vxlan_network_t) (id : c_string),
      e1.id = some id → e2.id = some id →
      e1 ∈ stored (storage_save_network (storage_save_network s (some e1) true).2 (some e2)
          true).2.networks_table ∧
      ((∀ c, realloc_ok c = true) →
        e1 ∈ (storage_list_networks
          (storage_save_network (storage_save_network s (some e1) true).2 (some e2) true).2
          none realloc_ok).1.getD []) ∧
      storage_get_network
        (storage_save_network (storage_save_network s (some e1) true).2 (some e2) true).2
        (some id) = some e2) := by
  have hlen : (stored (run_ops (storage_init true).2 ops).networks_table).length
      = count_network_saves (storage_init true).2 ops
        - count_network_deletes (storage_init true).2 ops := by
    have h := length_stored_run_ops ops (storage_init true).2
    have h0 : (stored (storage_init true).2.networks_table).length = 0 := by
      show (stored (zeroed_table vxlan_network_t)).length = 0
      rw [stored_zeroed_table]
      rfl
    omega
  refine ⟨hlen, ?_, ?_⟩
  · intro h
    rw [← hlen]
    rcases h with hall | hsome
    · simp only [storage_list_networks]
      rw [list_table_all_ok realloc_ok hall, filter_tenant_none]
    · cases harr : (storage_list_networks (run_ops (storage_init true).2 ops) none
          realloc_ok).1 with
      | none => exact absurd harr hsome
      | some arr =>
        have h2 := list_table_some realloc_ok (tenant_id_matches none) _ arr harr
        rw [filter_tenant_none] at h2
        simp only [storage_list_networks]
        rw [h2.2, h2.1]
  · intro s e1 e2 id h1 h2
    have hstate : (storage_save_network (storage_save_network s (some e1) true).2 (some e2)
        true).2.networks_table.entries (hash id)
          = ⟨id, e2⟩ :: ⟨id, e1⟩ :: s.networks_table.entries (hash id) := by
      rw [save_network_state _ e2 id h2, save_network_state s e1 id h1]
      simp
    have hmem : e1 ∈ stored
        (storage_save_network (storage_save_network s (some e1) true).2 (some e2)
          true).2.networks_table := by
      apply mem_stored _ (hash id) (hash_lt id) ⟨id, e1⟩
      rw [hstate]
      simp
    refine ⟨hmem, ?_, ?_⟩
    · intro hall
      simp only [storage_list_networks]
      rw [list_table_all_ok realloc_ok hall, filter_tenant_none]
      cases hl : stored (storage_save_network (storage_save_network s (some e1) true).2
          (some e2) true).2.networks_table with
      | nil => rw [hl] at hmem; cases hmem
      | cons a l =>
        rw [hl] at hmem
        simpa using hmem
    · simp only [storage_get_network, hstate, get_network_loop, if_true]

/-- Witness of C28: after saving `net_a1` and `net_a2` under the id `a`, with
no `realloc` failing, the count is 2 - 0 and `net_a1` is listed while the
lookup of `a` returns `net_a2`. -/
theorem list_count_is_saves_minus_deletes_witness :
    (storage_list_networks
        (run_ops (storage_init true).2
          [storage_op.save_network (some net_a1) true,
            storage_op.save_network (some net_a2) true])
        none (fun _ => true)).2
      = count_network_saves (storage_init true).2
          [storage_op.save_network (some net_a1) true,
            storage_op.save_network (some net_a2) true]
        - count_network_deletes (storage_init true).2
          [storage_op.save_network (some net_a1) true,
            storage_op.save_network (some net_a2) true] ∧
    count_network_saves (storage_init true).2
      [storage_op.save_network (some net_a1) true,
        storage_op.save_network (some net_a2) true] = 2 ∧
    count_network_deletes (storage_init true).2
      [storage_op.save_network (some net_a1) true,
        storage_op.save_network (some net_a2) true] = 0 ∧
    storage_get_network store_2 (some (ascii "a")) = some net_a2 :=
  ⟨(list_count_is_saves_minus_deletes
      [storage_op.save_network (some net_a1) true, storage_op.save_network (some net_a2) true]
      (fun _ => true)).2.1 (Or.inl (fun _ => rfl)),
    by decide, by decide, by decide⟩

end Vxlan
